import Mathlib

/-! Win2D: `CanvasControl` redraw scheduling and `CanvasDeviceManager` device
creation.

A shallow embedding of `winrt/lib/CanvasControl.cpp` (the XAML control that
schedules redraws against the compositor's rendering callback) and of the
device manager exercised by `winrt/test.internal/CanvasDeviceUnitTests.cpp`.

Conventions of the embedding:

* a C++ member function becomes a Lean function from the state before the call
  to the result and the state after it; a member that mutates state and then
  throws returns the error together with the state it left behind;
* answers of the host platform (XAML, the compositor, Direct2D/Direct3D) are
  explicit arguments, so that a failing platform call can be supplied;
* `float`/`double` sizes are rationals (every finite floating point value is
  one); NaN and infinities are outside the model;
* pointers handed in by the caller (out-parameters, delegates, event args)
  are valid unless the function itself tests them.
-/

namespace canvas

/-! ## Platform vocabulary -/

/-- Windows `HRESULT`: a signed 32-bit status, negative on failure. -/
abbrev HRESULT := Int

/-- Success. -/
def S_OK : HRESULT := 0
/-- Unspecified failure, `0x80004005`. -/
def E_FAIL : HRESULT := -2147467259
/-- An argument is not valid, `0x80070057`; what `InvalidArgException` carries. -/
def E_INVALIDARG : HRESULT := -2147024809
/-- The object has been closed, `0x80000013`. -/
def RO_E_CLOSED : HRESULT := -2147483629

/-- The `FAILED` test of the platform headers: the sign bit is set. -/
def FAILED (hr : HRESULT) : Bool := decide (hr < 0)

/-- Modelled from the spec: `ThrowIfFailed` is declared outside the sources at
hand; it throws an exception carrying `hr` when `FAILED(hr)` and returns
normally otherwise. -/
def ThrowIfFailed (hr : HRESULT) : Except HRESULT Unit :=
  if FAILED hr then .error hr else .ok ()

/-- Modelled from the spec: `ExceptionBoundary` is declared outside the sources
at hand; it runs a body and turns a thrown `HRESULT` exception into the
returned status, `S_OK` when the body returns normally. -/
def ExceptionBoundary (body : Except HRESULT Unit) : HRESULT :=
  match body with
  | .ok _ => S_OK
  | .error hr => hr

def INT_MAX : Int := 2147483647
def INT_MIN : Int := -2147483648

/-- The conversion `static_cast<int>(x)` of a finite floating point value:
truncation toward zero.  For a value whose truncation does not fit an `int`
C++ defines no result; the embedding returns what x86 conversion instructions
produce, `INT_MIN`. -/
def static_cast_int (x : ℚ) : Int :=
  let t := Int.tdiv x.num (x.den : Int)
  if INT_MIN ≤ t ∧ t ≤ INT_MAX then t else INT_MIN

/-- The type `Windows::Foundation::Size`, two `float`s. -/
structure Size where
  Width : ℚ
  Height : ℚ
deriving DecidableEq

/-- The type `EventRegistrationToken`, a 64-bit value chosen by the event source. -/
abbrev EventRegistrationToken := Int

/-- What a delegate is invoked with: `nullptr`, the control itself (`this`), or
the drawing event args of the numbered drawing session. -/
inductive Pointer where
  | nullptr
  | this
  | drawEventArgs (session : Nat)
deriving DecidableEq, Repr

/-- An application delegate registered on one of the control's events.  `id` is
the identity of the delegate object, `result` what its `Invoke` returns, and
`callsInvalidate` whether its body calls `Invalidate()` on the sender
("handlers themselves may call Invalidate()"). -/
structure Handler where
  id : Nat
  callsInvalidate : Bool
  result : HRESULT
deriving DecidableEq, Repr

/-- One `Invoke` of a delegate, as observed by the application. -/
structure Invocation where
  handler : Handler
  sender : Pointer
  args : Pointer
deriving DecidableEq, Repr

/-- Modelled from the spec: the event list class behind
`m_createResourcesEventList` and `m_drawEventList` is declared outside the
sources at hand.  It keeps the registered delegates in registration order under
tokens it hands out itself. -/
structure EventSource where
  m_handlers : List (EventRegistrationToken × Handler)
  m_nextToken : EventRegistrationToken
deriving DecidableEq

/-- Modelled from the spec: `Add` of the event list (not among the sources);
registers the delegate under a fresh token and returns the token. -/
def EventSource.Add (e : EventSource) (value : Handler) :
    EventRegistrationToken × EventSource :=
  (e.m_nextToken,
   { m_handlers := e.m_handlers ++ [(e.m_nextToken, value)],
     m_nextToken := e.m_nextToken + 1 })

/-- Modelled from the spec: `Remove` of the event list (not among the
sources); drops the registration made under `token`, if any. -/
def EventSource.Remove (e : EventSource) (token : EventRegistrationToken) :
    EventSource :=
  { e with m_handlers := e.m_handlers.filter (fun p => p.1 ≠ token) }

/-- An `ICanvasDevice` pointer, by the identity of the object behind it. -/
abbrev ICanvasDevice := Nat

/-- A `CanvasImageSource` made by the adapter: its identity and what it was
created with (the device pointer may be null). -/
structure CanvasImageSource where
  id : Nat
  device : Option ICanvasDevice
  width : Int
  height : Int
deriving DecidableEq, Repr

/-- The world behind `ICanvasControlAdapter` and the XAML elements the control
composes: the compositor's registered `Rendering` callbacks of this control
(by token), every image source created so far, the `Source` of the `Image`
element, the sizes the `Image` element was asked to measure itself for, and the
delegate invocations the application has seen. -/
structure Xaml where
  rendering : List EventRegistrationToken
  nextRenderingToken : EventRegistrationToken
  imageSources : List CanvasImageSource
  imageControlSource : Option CanvasImageSource
  imageControlMeasured : List Size
  invocations : List Invocation
deriving DecidableEq

/-- The data members of `CanvasControl`. -/
structure CanvasControl where
  m_canvasDevice : Option ICanvasDevice
  m_drawNeeded : Bool
  m_isLoaded : Bool
  m_currentWidth : Int
  m_currentHeight : Int
  m_canvasImageSource : Option CanvasImageSource
  m_renderingEventToken : EventRegistrationToken
  m_createResourcesEventList : EventSource
  m_drawEventList : EventSource
deriving DecidableEq

/-- A control together with the platform state it acts on. -/
structure World where
  control : CanvasControl
  xaml : Xaml
deriving DecidableEq

/-! ## The adapter -/

/-- Embeds `CanvasControlAdapter::AddCompositionRenderingCallback`: forwards to
`CompositionTarget.add_Rendering`, whose status is `hr`; on success the
compositor holds one more registration, under the token it returns. -/
def AddCompositionRenderingCallback (hr : HRESULT) (x : Xaml) :
    Except HRESULT EventRegistrationToken × Xaml :=
  match ThrowIfFailed hr with
  | .error e => (.error e, x)
  | .ok _ =>
    (.ok x.nextRenderingToken,
     { x with rendering := x.rendering ++ [x.nextRenderingToken],
              nextRenderingToken := x.nextRenderingToken + 1 })

/-- Embeds `CanvasControlAdapter::RemoveCompositionRenderingCallback`: forwards
to `CompositionTarget.remove_Rendering`, whose status is `hr`; on success the
compositor no longer holds a registration under `token`. -/
def RemoveCompositionRenderingCallback (hr : HRESULT) (token : EventRegistrationToken)
    (x : Xaml) : Except HRESULT Unit × Xaml :=
  match ThrowIfFailed hr with
  | .error e => (.error e, x)
  | .ok _ => (.ok (), { x with rendering := x.rendering.filter (fun r => r ≠ token) })

/-- Embeds `CanvasControlAdapter::CreateCanvasImageSource`: forwards to the image
source factory, whose status is `hr`; on success a new image source exists. -/
def CreateCanvasImageSource (hr : HRESULT) (device : Option ICanvasDevice)
    (width height : Int) (x : Xaml) : Except HRESULT CanvasImageSource × Xaml :=
  match ThrowIfFailed hr with
  | .error e => (.error e, x)
  | .ok _ =>
    let src : CanvasImageSource :=
      { id := x.imageSources.length, device := device, width := width, height := height }
    (.ok src, { x with imageSources := x.imageSources ++ [src] })

/-! ## CanvasControl -/

/-- Embeds `CanvasControl::InvalidateImpl`: nothing to do while a draw is needed;
otherwise the flag is set first and the rendering callback registered second,
so a refused registration leaves the flag set. -/
def InvalidateImpl (hrAdd : HRESULT) (w : World) : Except HRESULT Unit × World :=
  if w.control.m_drawNeeded then
    (.ok (), w)
  else
    let c1 := { w.control with m_drawNeeded := true }
    match AddCompositionRenderingCallback hrAdd w.xaml with
    | (.error e, x) => (.error e, { control := c1, xaml := x })
    | (.ok token, x) =>
      (.ok (), { control := { c1 with m_renderingEventToken := token }, xaml := x })

/-- A delegate's `Invoke(sender, args)`: the application observes the
invocation; a delegate whose body calls `Invalidate()` does so on the control
(`hrAdd` is the compositor's answer should that call reach it); the delegate's
status is returned.  Delegates make no other call on the control. -/
def Handler.Invoke (h : Handler) (sender args : Pointer) (hrAdd : HRESULT) (w : World) :
    HRESULT × World :=
  let w1 : World :=
    { w with xaml := { w.xaml with
        invocations := w.xaml.invocations ++ [{ handler := h, sender := sender, args := args }] } }
  let w2 := if h.callsInvalidate then (InvalidateImpl hrAdd w1).2 else w1
  (h.result, w2)

/-- Modelled from the spec: `FireAll` of the event list (not among the
sources).  Following the comment in `OnLoaded` ("On Loaded, all handlers are
fired") it invokes every registered delegate once, in registration order, with
the given sender and args; its call sites use no result of it. -/
def FireAll (handlers : List (EventRegistrationToken × Handler)) (sender args : Pointer)
    (hrAdd : HRESULT) (w : World) : World :=
  handlers.foldl (fun acc p => (p.2.Invoke sender args hrAdd acc).2) w

/-- Embeds `CanvasControl::Invalidate`: `InvalidateImpl` inside the exception
boundary. -/
def Invalidate (hrAdd : HRESULT) (w : World) : HRESULT × World :=
  let r := InvalidateImpl hrAdd w
  (ExceptionBoundary r.1, r.2)

/-- Consecutive `Invalidate()` calls, one per platform answer in `hrs`. -/
def InvalidateTimes (hrs : List HRESULT) (w : World) : World :=
  hrs.foldl (fun acc hr => (Invalidate hr acc).2) w

/-- What XAML answers while `EnsureSizeDependentResources` runs: the status of
each call, and the actual size of the element. -/
structure LayoutAnswers where
  As_IFrameworkElement : HRESULT
  get_ActualWidth : HRESULT × ℚ
  get_ActualHeight : HRESULT × ℚ
  CreateCanvasImageSource : HRESULT
  As_IImageSource : HRESULT
  put_Source : HRESULT

/-- What ends a member function other than a return or a C++ exception. -/
inductive Fault where
  | assertion
  | nullDereference
deriving DecidableEq, Repr

/-- The `assert` of `<cassert>`: checked unless `NDEBUG` is defined. -/
def assert (ndebug : Bool) (condition : Bool) : Except Fault Unit :=
  if ndebug || condition then .ok () else .error .assertion

/-- Embeds `CanvasControl::EnsureSizeDependentResources`, statement by
statement; `ndebug` tells whether assertions are compiled out. -/
def EnsureSizeDependentResources (ndebug : Bool) (p : LayoutAnswers) (w : World) :
    Except Fault (Except HRESULT Unit × World) :=
  match assert ndebug w.control.m_canvasDevice.isSome with
  | .error f => .error f
  | .ok _ =>
  match assert ndebug w.control.m_isLoaded with
  | .error f => .error f
  | .ok _ =>
  match ThrowIfFailed p.As_IFrameworkElement with
  | .error e => .ok (.error e, w)
  | .ok _ =>
  match ThrowIfFailed p.get_ActualWidth.1 with
  | .error e => .ok (.error e, w)
  | .ok _ =>
  match ThrowIfFailed p.get_ActualHeight.1 with
  | .error e => .ok (.error e, w)
  | .ok _ =>
  let actualWidth := p.get_ActualWidth.2
  let actualHeight := p.get_ActualHeight.2
  match assert ndebug (decide (actualWidth ≤ (INT_MAX : ℚ))) with
  | .error f => .error f
  | .ok _ =>
  match assert ndebug (decide (actualHeight ≤ (INT_MAX : ℚ))) with
  | .error f => .error f
  | .ok _ =>
  let width := static_cast_int actualWidth
  let height := static_cast_int actualHeight
  if w.control.m_canvasImageSource.isSome
      && (width == w.control.m_currentWidth && height == w.control.m_currentHeight) then
    .ok (.ok (), w)
  else
    match CreateCanvasImageSource p.CreateCanvasImageSource w.control.m_canvasDevice
        width height w.xaml with
    | (.error e, x) => .ok (.error e, { w with xaml := x })
    | (.ok source, x) =>
      let c : CanvasControl :=
        { w.control with m_canvasImageSource := some source,
                         m_currentWidth := width, m_currentHeight := height }
      match ThrowIfFailed p.As_IImageSource with
      | .error e => .ok (.error e, { control := c, xaml := x })
      | .ok _ =>
      match ThrowIfFailed p.put_Source with
      | .error e => .ok (.error e, { control := c, xaml := x })
      | .ok _ => .ok (.ok (), { control := c, xaml := { x with imageControlSource := some source } })

/-- What the drawing session answers while `CallDrawHandlers` runs; the number
identifies the session `CreateDrawingSession` hands out. -/
structure DrawAnswers where
  CreateDrawingSession : HRESULT × Nat
  As_IClosable : HRESULT
  Close : HRESULT

/-- Embeds `CanvasControl::CallDrawHandlers`.  `m_canvasImageSource->` on a null
image source is a fault. -/
def CallDrawHandlers (d : DrawAnswers) (hrAdd : HRESULT) (w : World) :
    Except Fault (Except HRESULT Unit × World) :=
  match w.control.m_canvasImageSource with
  | none => .error .nullDereference
  | some _ =>
  match ThrowIfFailed d.CreateDrawingSession.1 with
  | .error e => .ok (.error e, w)
  | .ok _ =>
  let w1 := FireAll w.control.m_drawEventList.m_handlers .this
    (.drawEventArgs d.CreateDrawingSession.2) hrAdd w
  match ThrowIfFailed d.As_IClosable with
  | .error e => .ok (.error e, w1)
  | .ok _ =>
  match ThrowIfFailed d.Close with
  | .error e => .ok (.error e, w1)
  | .ok _ => .ok (.ok (), w1)

/-- Embeds `CanvasControl::ClearDrawNeeded`: the flag is cleared first, the
rendering callback under `m_renderingEventToken` unregistered second. -/
def ClearDrawNeeded (hrRemove : HRESULT) (w : World) : Except HRESULT Unit × World :=
  let c1 := { w.control with m_drawNeeded := false }
  match RemoveCompositionRenderingCallback hrRemove c1.m_renderingEventToken w.xaml with
  | (.error e, x) => (.error e, { control := c1, xaml := x })
  | (.ok _, x) => (.ok (), { control := c1, xaml := x })

/-- Embeds `CanvasControl::OnRenderCallback`: `ClearDrawNeeded`,
`EnsureSizeDependentResources`, `CallDrawHandlers` inside the exception
boundary, which a fault passes through. -/
def OnRenderCallback (ndebug : Bool) (hrRemove : HRESULT) (p : LayoutAnswers)
    (d : DrawAnswers) (hrAdd : HRESULT) (w : World) : Except Fault (HRESULT × World) :=
  match ClearDrawNeeded hrRemove w with
  | (.error e, w1) => .ok (ExceptionBoundary (.error e), w1)
  | (.ok _, w1) =>
  match EnsureSizeDependentResources ndebug p w1 with
  | .error f => .error f
  | .ok (.error e, w2) => .ok (ExceptionBoundary (.error e), w2)
  | .ok (.ok _, w2) =>
  match CallDrawHandlers d hrAdd w2 with
  | .error f => .error f
  | .ok (r, w3) => .ok (ExceptionBoundary r, w3)

/-- Embeds `CanvasControl::MeasureOverride`: the `Image` element is asked to
measure itself for `availableSize` (`hrAs` and `hrMeasure` are the statuses of
the interface query and of `Measure`), and the zero size is written through
`returnValue`; the middle component is what was written, if anything.  The
request to measure is on record once it was made, whatever its status. -/
def MeasureOverride (hrAs hrMeasure : HRESULT) (availableSize : Size) (w : World) :
    HRESULT × Option Size × World :=
  match ThrowIfFailed hrAs with
  | .error e => (ExceptionBoundary (.error e), none, w)
  | .ok _ =>
  let w1 : World :=
    { w with xaml := { w.xaml with
        imageControlMeasured := w.xaml.imageControlMeasured ++ [availableSize] } }
  match ThrowIfFailed hrMeasure with
  | .error e => (ExceptionBoundary (.error e), none, w1)
  | .ok _ => (ExceptionBoundary (.ok ()), some { Width := 0, Height := 0 }, w1)

/-- Embeds `CanvasControl::OnLoaded`: mark the control loaded, fire the
`CreatingResources` delegates, invalidate. -/
def OnLoaded (hrAdd : HRESULT) (w : World) : HRESULT × World :=
  let w1 : World := { w with control := { w.control with m_isLoaded := true } }
  let w2 := FireAll w1.control.m_createResourcesEventList.m_handlers .this .nullptr hrAdd w1
  let r := InvalidateImpl hrAdd w2
  (ExceptionBoundary r.1, r.2)

/-- The `ISizeChangedEventArgs` of a `SizeChanged` event: what `get_NewSize`
returns and the size it writes. -/
structure ISizeChangedEventArgs where
  get_NewSize : HRESULT × Size

/-- Embeds `CanvasControl::OnSizeChanged`. -/
def OnSizeChanged (args : ISizeChangedEventArgs) (hrAdd : HRESULT) (w : World) :
    HRESULT × World :=
  if !w.control.m_isLoaded then
    (ExceptionBoundary (.ok ()), w)
  else
    match ThrowIfFailed args.get_NewSize.1 with
    | .error e => (ExceptionBoundary (.error e), w)
    | .ok _ =>
    let newSize := args.get_NewSize.2
    let newWidth := static_cast_int newSize.Width
    let newHeight := static_cast_int newSize.Height
    if newWidth == w.control.m_currentWidth && newHeight == w.control.m_currentHeight then
      (ExceptionBoundary (.ok ()), w)
    else
      let r := InvalidateImpl hrAdd w
      (ExceptionBoundary r.1, r.2)

/-- Embeds `CanvasControl::add_CreatingResources`; the token written through the
out-parameter is the middle component. -/
def add_CreatingResources (value : Handler) (hrAdd : HRESULT) (w : World) :
    HRESULT × EventRegistrationToken × World :=
  let added := w.control.m_createResourcesEventList.Add value
  let w1 : World := { w with control := { w.control with m_createResourcesEventList := added.2 } }
  if w1.control.m_isLoaded then
    let r := value.Invoke .this .nullptr hrAdd w1
    (ExceptionBoundary (ThrowIfFailed r.1), added.1, r.2)
  else
    (ExceptionBoundary (.ok ()), added.1, w1)

/-- Embeds `CanvasControl::remove_CreatingResources`. -/
def remove_CreatingResources (token : EventRegistrationToken) (w : World) : HRESULT × World :=
  (ExceptionBoundary (.ok ()),
   { w with control := { w.control with
       m_createResourcesEventList := w.control.m_createResourcesEventList.Remove token } })

/-- Embeds `CanvasControl::add_Drawing`. -/
def add_Drawing (value : Handler) (w : World) : HRESULT × EventRegistrationToken × World :=
  let added := w.control.m_drawEventList.Add value
  (ExceptionBoundary (.ok ()), added.1,
   { w with control := { w.control with m_drawEventList := added.2 } })

/-- Embeds `CanvasControl::remove_Drawing`. -/
def remove_Drawing (token : EventRegistrationToken) (w : World) : HRESULT × World :=
  (ExceptionBoundary (.ok ()),
   { w with control := { w.control with
       m_drawEventList := w.control.m_drawEventList.Remove token } })

/-- Modelled from the spec: the event list class is not among the sources; a
newly constructed list holds no delegate. -/
def EventSource.empty : EventSource := { m_handlers := [], m_nextToken := 1 }

/-- Embeds `CanvasControl::CanvasControl`: the member initialisers.  The device is the
one `CreateCanvasDevice` returned; `m_renderingEventToken` has no initialiser,
`token` is the value it happens to hold. -/
def CanvasControl.construct (device : ICanvasDevice) (token : EventRegistrationToken) :
    CanvasControl :=
  { m_canvasDevice := some device,
    m_drawNeeded := false,
    m_isLoaded := false,
    m_currentWidth := 0,
    m_currentHeight := 0,
    m_canvasImageSource := none,
    m_renderingEventToken := token,
    m_createResourcesEventList := EventSource.empty,
    m_drawEventList := EventSource.empty }

/-- A platform on which nothing has happened yet. -/
def Xaml.initial : Xaml :=
  { rendering := [], nextRenderingToken := 1, imageSources := [],
    imageControlSource := none, imageControlMeasured := [], invocations := [] }

/-- A newly constructed control on a fresh platform. -/
def World.initial : World :=
  { control := CanvasControl.construct 0 0, xaml := Xaml.initial }

/-- A call on the `CreatingResources` event.  An `add` carries the delegate
and the compositor's answer, should the delegate's body reach the compositor. -/
inductive CreatingResourcesCall where
  | add (value : Handler) (hrAdd : HRESULT)
  | remove (token : EventRegistrationToken)
deriving DecidableEq

/-- The state a `CreatingResources` call leaves. -/
def CreatingResourcesCall.run (c : CreatingResourcesCall) (w : World) : World :=
  match c with
  | .add value hrAdd => (add_CreatingResources value hrAdd w).2.2
  | .remove token => (remove_CreatingResources token w).2

/-- The state a sequence of `CreatingResources` calls leaves. -/
def runCalls (calls : List CreatingResourcesCall) (w : World) : World :=
  calls.foldl (fun acc c => c.run acc) w

/-- The delegates a sequence of calls registers, in order. -/
def addedBy (calls : List CreatingResourcesCall) : List Handler :=
  calls.filterMap (fun c =>
    match c with
    | .add value _ => some value
    | .remove _ => none)

/-- One `CreatingResources` invocation per delegate: the control as sender,
null args. -/
def fired (hs : List Handler) : List Invocation :=
  hs.map (fun h => { handler := h, sender := .this, args := .nullptr })

/-- The delegates registered for `CreatingResources`, in registration order. -/
def registered (w : World) : List Handler :=
  w.control.m_createResourcesEventList.m_handlers.map Prod.snd

/-! ## Everything that can happen to a control -/

/-- A public call on the control, a XAML event, or the compositor invoking a
rendering callback, each with the platform's answers during it. -/
inductive ControlEvent where
  | invalidate (hrAdd : HRESULT)
  | addDrawing (value : Handler)
  | removeDrawing (token : EventRegistrationToken)
  | addCreatingResources (value : Handler) (hrAdd : HRESULT)
  | removeCreatingResources (token : EventRegistrationToken)
  | loaded (hrAdd : HRESULT)
  | sizeChanged (args : ISizeChangedEventArgs) (hrAdd : HRESULT)
  | rendering (hrRemove : HRESULT) (p : LayoutAnswers) (d : DrawAnswers) (hrAdd : HRESULT)
  | measure (hrAs hrMeasure : HRESULT) (availableSize : Size)

/-- The state an event leaves, or the fault that ends the process.  The
compositor invokes only a callback that is registered: `rendering` with no
registration is no event at all. -/
def ControlEvent.step (ndebug : Bool) (e : ControlEvent) (w : World) : Except Fault World :=
  match e with
  | .invalidate hrAdd => .ok (Invalidate hrAdd w).2
  | .addDrawing value => .ok (add_Drawing value w).2.2
  | .removeDrawing token => .ok (remove_Drawing token w).2
  | .addCreatingResources value hrAdd => .ok (add_CreatingResources value hrAdd w).2.2
  | .removeCreatingResources token => .ok (remove_CreatingResources token w).2
  | .loaded hrAdd => .ok (OnLoaded hrAdd w).2
  | .sizeChanged args hrAdd => .ok (OnSizeChanged args hrAdd w).2
  | .rendering hrRemove p d hrAdd =>
    if w.xaml.rendering.isEmpty then
      .ok w
    else
      match OnRenderCallback ndebug hrRemove p d hrAdd w with
      | .error f => .error f
      | .ok r => .ok r.2
  | .measure hrAs hrMeasure availableSize =>
    .ok (MeasureOverride hrAs hrMeasure availableSize w).2.2

/-- The state a sequence of events leaves; a fault ends it. -/
def runEvents (ndebug : Bool) : List ControlEvent → World → Except Fault World
  | [], w => .ok w
  | e :: rest, w =>
    match e.step ndebug w with
    | .error f => .error f
    | .ok w1 => runEvents ndebug rest w1

/-! ## Accesses of the two flags, and `m_drawLock`

Next to what a member function does to the state, the order in which it takes
and releases `m_drawLock` and reads and writes `m_drawNeeded` and `m_isLoaded`,
statement by statement along the path it takes.  A `std::lock_guard` or
`std::unique_lock` releases the lock where its scope ends, also when the scope
is left by an exception. -/

/-- The two boolean members of `CanvasControl`. -/
inductive Flag where
  | m_drawNeeded
  | m_isLoaded
deriving DecidableEq, Repr

/-- Something a member function does with `m_drawLock` or with a flag. -/
inductive Access where
  | lock
  | unlock
  | read (flag : Flag)
  | write (flag : Flag)
deriving DecidableEq, Repr

/-- The accesses of `CanvasControl::InvalidateImpl`: the lock guard, the test of
`m_drawNeeded`, the assignment unless the test returned, the end of scope. -/
def InvalidateImpl_accesses (w : World) : List Access :=
  [.lock, .read .m_drawNeeded]
    ++ (if w.control.m_drawNeeded then [] else [.write .m_drawNeeded])
    ++ [.unlock]

/-- The accesses of `CanvasControl::ClearDrawNeeded`: the lock, the assignment,
the end of scope. -/
def ClearDrawNeeded_accesses : List Access :=
  [.lock, .write .m_drawNeeded, .unlock]

/-- The accesses during a delegate's `Invoke`: those of `Invalidate()` when its
body calls it. -/
def Invoke_accesses (h : Handler) (w : World) : List Access :=
  if h.callsInvalidate then InvalidateImpl_accesses w else []

/-- The accesses during `FireAll`: those of each invocation in turn. -/
def FireAll_accesses (sender args : Pointer) (hrAdd : HRESULT) :
    List (EventRegistrationToken × Handler) → World → List Access
  | [], _ => []
  | q :: rest, w =>
    Invoke_accesses q.2 w
      ++ FireAll_accesses sender args hrAdd rest (q.2.Invoke sender args hrAdd w).2

/-- The accesses of `CanvasControl::EnsureSizeDependentResources`:
`assert(m_isLoaded)`, evaluated when assertions are compiled in and
`assert(m_canvasDevice)` before it held. -/
def EnsureSizeDependentResources_accesses (ndebug : Bool) (w : World) : List Access :=
  if ndebug then []
  else if w.control.m_canvasDevice.isSome then [.read .m_isLoaded]
  else []

/-- The accesses of `CanvasControl::CallDrawHandlers`: those of firing the
`Drawing` delegates, when it gets that far. -/
def CallDrawHandlers_accesses (d : DrawAnswers) (hrAdd : HRESULT) (w : World) : List Access :=
  match w.control.m_canvasImageSource with
  | none => []
  | some _ =>
    match ThrowIfFailed d.CreateDrawingSession.1 with
    | .error _ => []
    | .ok _ =>
      FireAll_accesses .this (.drawEventArgs d.CreateDrawingSession.2) hrAdd
        w.control.m_drawEventList.m_handlers w

/-- The accesses of `CanvasControl::OnRenderCallback`. -/
def OnRenderCallback_accesses (ndebug : Bool) (hrRemove : HRESULT) (p : LayoutAnswers)
    (d : DrawAnswers) (hrAdd : HRESULT) (w : World) : List Access :=
  ClearDrawNeeded_accesses ++
    match ClearDrawNeeded hrRemove w with
    | (.error _, _) => []
    | (.ok _, w1) =>
      EnsureSizeDependentResources_accesses ndebug w1 ++
        match EnsureSizeDependentResources ndebug p w1 with
        | .ok (.ok _, w2) => CallDrawHandlers_accesses d hrAdd w2
        | _ => []

/-- The accesses of `CanvasControl::OnLoaded`: the assignment to `m_isLoaded`,
firing the `CreatingResources` delegates, `InvalidateImpl`. -/
def OnLoaded_accesses (hrAdd : HRESULT) (w : World) : List Access :=
  let w1 : World := { w with control := { w.control with m_isLoaded := true } }
  [.write .m_isLoaded]
    ++ FireAll_accesses .this .nullptr hrAdd w1.control.m_createResourcesEventList.m_handlers w1
    ++ InvalidateImpl_accesses
        (FireAll w1.control.m_createResourcesEventList.m_handlers .this .nullptr hrAdd w1)

/-- The accesses of `CanvasControl::OnSizeChanged`: the test of `m_isLoaded`,
and `InvalidateImpl` when it gets that far. -/
def OnSizeChanged_accesses (args : ISizeChangedEventArgs) (w : World) : List Access :=
  [.read .m_isLoaded] ++
    if !w.control.m_isLoaded then []
    else
      match ThrowIfFailed args.get_NewSize.1 with
      | .error _ => []
      | .ok _ =>
        if static_cast_int args.get_NewSize.2.Width == w.control.m_currentWidth
            && static_cast_int args.get_NewSize.2.Height == w.control.m_currentHeight then []
        else InvalidateImpl_accesses w

/-- The accesses of `CanvasControl::add_CreatingResources`: the test of
`m_isLoaded` and, on a loaded control, the invocation of the delegate. -/
def add_CreatingResources_accesses (value : Handler) (w : World) : List Access :=
  [.read .m_isLoaded] ++ if w.control.m_isLoaded then Invoke_accesses value w else []

/-- The accesses during an event. -/
def ControlEvent.accesses (ndebug : Bool) (e : ControlEvent) (w : World) : List Access :=
  match e with
  | .invalidate _ => InvalidateImpl_accesses w
  | .addDrawing _ => []
  | .removeDrawing _ => []
  | .addCreatingResources value _ => add_CreatingResources_accesses value w
  | .removeCreatingResources _ => []
  | .loaded hrAdd => OnLoaded_accesses hrAdd w
  | .sizeChanged args _ => OnSizeChanged_accesses args w
  | .rendering hrRemove p d hrAdd =>
    if w.xaml.rendering.isEmpty then [] else OnRenderCallback_accesses ndebug hrRemove p d hrAdd w
  | .measure _ _ _ => []

/-- Whether every read and write of `flag` in a sequence of accesses happens
while `m_drawLock` is held; `held` tells whether it is held at the start. -/
def guarded (flag : Flag) : Bool → List Access → Bool
  | _, [] => true
  | _, .lock :: rest => guarded flag true rest
  | _, .unlock :: rest => guarded flag false rest
  | held, .read f :: rest => (f != flag || held) && guarded flag held rest
  | held, .write f :: rest => (f != flag || held) && guarded flag held rest

/-! ## The device manager of `CanvasDeviceUnitTests.cpp`

`CanvasDeviceManager`, `CanvasDevice` and `TestDeviceResourceCreationAdapter`
are exercised by the unit tests but defined outside the sources at hand.
Everything in this section is therefore modelled from the specification's
account of them ("device-creation, hardware/software fallback, and
identity-caching behavior") and from what the unit tests call and assert. -/

/-- Modelled from the spec: the `CanvasDebugLevel` enumeration is declared
outside the sources at hand; `other raw` is a value that is none of the four
enumerators the tests name, as `static_cast<CanvasDebugLevel>(1234)` is. -/
inductive CanvasDebugLevel where
  | None
  | Error
  | Warning
  | Information
  | other (raw : Int)
deriving DecidableEq, Repr

/-- Modelled from the spec: the `CanvasHardwareAcceleration` enumeration is
declared outside the sources at hand; `other raw` is a value that is none of
the four enumerators the tests name, as
`static_cast<CanvasHardwareAcceleration>(0x5678)` is. -/
inductive CanvasHardwareAcceleration where
  | Auto
  | On
  | Off
  | Unknown
  | other (raw : Int)
deriving DecidableEq, Repr

/-- The debug levels `Create` accepts. -/
def CanvasDebugLevel.isValid : CanvasDebugLevel → Bool
  | .None | .Error | .Warning | .Information => true
  | .other _ => false

/-- The hardware acceleration options `Create` accepts. -/
def CanvasHardwareAcceleration.isOption : CanvasHardwareAcceleration → Bool
  | .Auto | .On | .Off => true
  | .Unknown | .other _ => false

/-- A native Direct2D device, by identity: one a D2D factory of the manager
made, or one made elsewhere (the tests' `MockD2DDevice`). -/
inductive ID2D1Device where
  | created (n : Nat)
  | external (n : Nat)
deriving DecidableEq, Repr

/-- A Direct3D device, by identity: one the adapter made, one made elsewhere
(the tests' stub over a `MockD3D11Device`), or the one underlying a given
Direct2D device. -/
inductive IDirect3DDevice where
  | created (n : Nat)
  | external (n : Nat)
  | underlying (d2dDevice : ID2D1Device)
deriving DecidableEq, Repr

/-- Modelled from the spec: `TestDeviceResourceCreationAdapter` is declared
outside the sources at hand; these are the members the unit tests read, and
the switch `SetHardwareEnabled` sets. -/
structure TestDeviceResourceCreationAdapter where
  m_numD2DFactoryCreationCalls : Nat
  m_debugLevel : CanvasDebugLevel
  m_numD3dDeviceCreationCalls : Nat
  m_allowHardware : Bool
  m_retrievableHarwareAcceleration : CanvasHardwareAcceleration
deriving DecidableEq, Repr

/-- Modelled from the spec: a `CanvasDevice` object is declared outside the
sources at hand.  It keeps the debug level and the hardware acceleration it
reports, and its two native devices, which `Close` lets go of (`none`).
`referenced` tells whether anyone still holds a reference to the object. -/
structure CanvasDevice where
  m_debugLevel : CanvasDebugLevel
  m_hardwareAcceleration : CanvasHardwareAcceleration
  m_direct3DDevice : Option IDirect3DDevice
  m_d2dDevice : Option ID2D1Device
  referenced : Bool
deriving DecidableEq, Repr

/-- Modelled from the spec: `CanvasDeviceManager` is declared outside the
sources at hand.  Its identity cache knows, for a Direct2D device, the
`CanvasDevice` that wraps it. -/
structure CanvasDeviceManager where
  m_resources : List (ID2D1Device × ICanvasDevice)
deriving DecidableEq, Repr

/-- The test class `CanvasDeviceTests`: the adapter and the manager built on
it, together with every `CanvasDevice` object made so far (an `ICanvasDevice`
is a position in `objects`) and the number of native devices made so far. -/
structure CanvasDeviceTests where
  m_resourceCreationAdapter : TestDeviceResourceCreationAdapter
  m_deviceManager : CanvasDeviceManager
  objects : List CanvasDevice
  natives : Nat
deriving DecidableEq, Repr

/-- Modelled from the spec: the state `TEST_METHOD_INITIALIZE(Reset)` builds, a
new adapter (hardware enabled, nothing created) and a new manager on it. -/
def CanvasDeviceTests.Reset : CanvasDeviceTests :=
  { m_resourceCreationAdapter :=
      { m_numD2DFactoryCreationCalls := 0,
        m_debugLevel := .other (-1),
        m_numD3dDeviceCreationCalls := 0,
        m_allowHardware := true,
        m_retrievableHarwareAcceleration := .Auto },
    m_deviceManager := { m_resources := [] },
    objects := [],
    natives := 0 }

/-- Modelled from the spec: `SetHardwareEnabled` of the test adapter (not among
the sources) switches the hardware path on or off. -/
def TestDeviceResourceCreationAdapter.SetHardwareEnabled
    (a : TestDeviceResourceCreationAdapter) (enable : Bool) :
    TestDeviceResourceCreationAdapter :=
  { a with m_allowHardware := enable }

/-- Modelled from the spec: `CreateD2DFactory` of the test adapter (not among
the sources) counts the call and remembers the debug level asked for. -/
def TestDeviceResourceCreationAdapter.CreateD2DFactory
    (a : TestDeviceResourceCreationAdapter) (debugLevel : CanvasDebugLevel) :
    TestDeviceResourceCreationAdapter :=
  { a with m_numD2DFactoryCreationCalls := a.m_numD2DFactoryCreationCalls + 1,
           m_debugLevel := debugLevel }

/-- Modelled from the spec: `TryCreateD3DDevice` of the test adapter (not among
the sources) refuses a hardware device while the hardware path is disabled;
otherwise it counts the creation and remembers the kind of device made. -/
def TestDeviceResourceCreationAdapter.TryCreateD3DDevice
    (a : TestDeviceResourceCreationAdapter)
    (hardwareAcceleration : CanvasHardwareAcceleration) :
    Bool × TestDeviceResourceCreationAdapter :=
  if hardwareAcceleration = .On ∧ a.m_allowHardware = false then
    (false, a)
  else
    (true,
     { a with m_numD3dDeviceCreationCalls := a.m_numD3dDeviceCreationCalls + 1,
              m_retrievableHarwareAcceleration := hardwareAcceleration })

/-- Modelled from the spec: how the manager (not among the sources) obtains a
D3D device for a requested acceleration.  `Auto` tries hardware and falls back
to software; `On` and `Off` try just that; no device means failure.  The result
is the acceleration of the device made. -/
def CanvasDeviceManager.MakeD3D11Device (a : TestDeviceResourceCreationAdapter)
    (requested : CanvasHardwareAcceleration) :
    Except HRESULT CanvasHardwareAcceleration × TestDeviceResourceCreationAdapter :=
  match requested with
  | .Auto =>
    match a.TryCreateD3DDevice .On with
    | (true, a1) => (.ok .On, a1)
    | (false, a1) =>
      match a1.TryCreateD3DDevice .Off with
      | (true, a2) => (.ok .Off, a2)
      | (false, a2) => (.error E_FAIL, a2)
  | .On =>
    match a.TryCreateD3DDevice .On with
    | (true, a1) => (.ok .On, a1)
    | (false, a1) => (.error E_FAIL, a1)
  | .Off =>
    match a.TryCreateD3DDevice .Off with
    | (true, a1) => (.ok .Off, a1)
    | (false, a1) => (.error E_FAIL, a1)
  | _ => (.error E_INVALIDARG, a)

/-- Modelled from the spec: the manager (not among the sources) makes a new
`CanvasDevice` object around a Direct2D device and enters it in its cache. -/
def CanvasDeviceManager.wrap (c : CanvasDevice) (d2dDevice : ID2D1Device)
    (t : CanvasDeviceTests) : ICanvasDevice × CanvasDeviceTests :=
  (t.objects.length,
   { t with objects := t.objects ++ [c],
            m_deviceManager :=
              { m_resources := t.m_deviceManager.m_resources ++ [(d2dDevice, t.objects.length)] } })

/-- Modelled from the spec: `CanvasDeviceManager::Create(debugLevel,
hardwareAcceleration)` is not among the sources.  An argument that is no valid
debug level or no acceleration option is refused with `InvalidArgException`
(`E_INVALIDARG`); otherwise one D2D factory is made with the debug level, a
D3D device as requested, a Direct2D device on it, and the `CanvasDevice`
wrapping them reports the acceleration of the D3D device made. -/
def CanvasDeviceManager.Create (debugLevel : CanvasDebugLevel)
    (hardwareAcceleration : CanvasHardwareAcceleration) (t : CanvasDeviceTests) :
    Except HRESULT ICanvasDevice × CanvasDeviceTests :=
  if debugLevel.isValid = false then
    (.error E_INVALIDARG, t)
  else if hardwareAcceleration.isOption = false then
    (.error E_INVALIDARG, t)
  else
    let a1 := t.m_resourceCreationAdapter.CreateD2DFactory debugLevel
    match CanvasDeviceManager.MakeD3D11Device a1 hardwareAcceleration with
    | (.error e, a2) => (.error e, { t with m_resourceCreationAdapter := a2 })
    | (.ok actual, a2) =>
      let made := CanvasDeviceManager.wrap
        { m_debugLevel := debugLevel,
          m_hardwareAcceleration := actual,
          m_direct3DDevice := some (.created t.natives),
          m_d2dDevice := some (.created t.natives),
          referenced := true }
        (.created t.natives)
        { t with m_resourceCreationAdapter := a2, natives := t.natives + 1 }
      (.ok made.1, made.2)

/-- Modelled from the spec: `CanvasDeviceManager::Create(debugLevel,
direct3DDevice)` is not among the sources.  A null device or an invalid debug
level is refused with `InvalidArgException`; otherwise one D2D factory is made
with the debug level, no D3D device, a Direct2D device on the given device,
and the `CanvasDevice` wrapping them reports `Unknown` acceleration. -/
def CanvasDeviceManager.Create_Direct3DDevice (debugLevel : CanvasDebugLevel)
    (direct3DDevice : Option IDirect3DDevice) (t : CanvasDeviceTests) :
    Except HRESULT ICanvasDevice × CanvasDeviceTests :=
  match direct3DDevice with
  | none => (.error E_INVALIDARG, t)
  | some device =>
    if debugLevel.isValid = false then
      (.error E_INVALIDARG, t)
    else
      let a1 := t.m_resourceCreationAdapter.CreateD2DFactory debugLevel
      let made := CanvasDeviceManager.wrap
        { m_debugLevel := debugLevel,
          m_hardwareAcceleration := .Unknown,
          m_direct3DDevice := some device,
          m_d2dDevice := some (.created t.natives),
          referenced := true }
        (.created t.natives)
        { t with m_resourceCreationAdapter := a1, natives := t.natives + 1 }
      (.ok made.1, made.2)

/-- Modelled from the spec: `CanvasDeviceManager::GetOrCreate(d2dDevice)` is
not among the sources.  A null device is refused; a Direct2D device the cache
knows yields the `CanvasDevice` that wraps it; for any other a new
`CanvasDevice` is made around it, creating no factory and no D3D device and
reporting `Unknown` acceleration. -/
def CanvasDeviceManager.GetOrCreate (d2dDevice : Option ID2D1Device) (t : CanvasDeviceTests) :
    Except HRESULT ICanvasDevice × CanvasDeviceTests :=
  match d2dDevice with
  | none => (.error E_INVALIDARG, t)
  | some resource =>
    match t.m_deviceManager.m_resources.find? (fun entry => entry.1 = resource) with
    | some entry => (.ok entry.2, t)
    | none =>
      let made := CanvasDeviceManager.wrap
        { m_debugLevel := .None,
          m_hardwareAcceleration := .Unknown,
          m_direct3DDevice := some (.underlying resource),
          m_d2dDevice := some resource,
          referenced := true }
        resource t
      (.ok made.1, made.2)

/-- Modelled from the spec: the object a live `ICanvasDevice` pointer leads to;
there is none for a pointer to no object or to one nobody references. -/
def CanvasDeviceTests.deref (t : CanvasDeviceTests) (device : ICanvasDevice) :
    Option CanvasDevice :=
  match t.objects[device]? with
  | some c => if c.referenced then some c else none
  | none => none

/-- Modelled from the spec: the last reference to a `CanvasDevice` goes away
(`ComPtr::Reset` in the tests); the object is destroyed and the cache forgets
it. -/
def CanvasDeviceTests.Release (t : CanvasDeviceTests) (device : ICanvasDevice) :
    Option CanvasDeviceTests :=
  match t.deref device with
  | none => none
  | some c =>
    some { t with
      objects := t.objects.set device { c with referenced := false },
      m_deviceManager :=
        { m_resources := t.m_deviceManager.m_resources.filter (fun entry => entry.2 ≠ device) } }

/-- Modelled from the spec: `CanvasDevice::Close` is not among the sources.  It
lets go of the native devices, the cache forgets the object, and it returns
`S_OK`. -/
def CanvasDevice.Close (device : ICanvasDevice) (t : CanvasDeviceTests) :
    Option (HRESULT × CanvasDeviceTests) :=
  match t.deref device with
  | none => none
  | some c =>
    some (S_OK,
      { t with
        objects := t.objects.set device { c with m_direct3DDevice := none, m_d2dDevice := none },
        m_deviceManager :=
          { m_resources :=
              t.m_deviceManager.m_resources.filter (fun entry => entry.2 ≠ device) } })

/-- Modelled from the spec: `CanvasDevice::get_Direct3DDevice` is not among the
sources.  `value` is the out-pointer: `none` for a null pointer, otherwise what
it points at before the call; the second component is what it points at
afterwards.  A null pointer is `E_INVALIDARG`; otherwise the pointee is cleared
first, and a closed device answers `RO_E_CLOSED`. -/
def CanvasDevice.get_Direct3DDevice (device : ICanvasDevice)
    (value : Option (Option IDirect3DDevice)) (t : CanvasDeviceTests) :
    Option (HRESULT × Option (Option IDirect3DDevice)) :=
  match t.deref device with
  | none => none
  | some c =>
    match value with
    | none => some (E_INVALIDARG, none)
    | some _ =>
      match c.m_direct3DDevice with
      | none => some (RO_E_CLOSED, some none)
      | some d => some (S_OK, some (some d))

/-- Modelled from the spec: `CanvasDevice::get_HardwareAcceleration` is not
among the sources.  `value` is the out-pointer as for `get_Direct3DDevice`.  A
null pointer is `E_INVALIDARG`, a closed device answers `RO_E_CLOSED` and
writes nothing, an open one writes the acceleration it reports. -/
def CanvasDevice.get_HardwareAcceleration (device : ICanvasDevice)
    (value : Option CanvasHardwareAcceleration) (t : CanvasDeviceTests) :
    Option (HRESULT × Option CanvasHardwareAcceleration) :=
  match t.deref device with
  | none => none
  | some c =>
    match value with
    | none => some (E_INVALIDARG, none)
    | some old =>
      match c.m_d2dDevice with
      | none => some (RO_E_CLOSED, some old)
      | some _ => some (S_OK, some c.m_hardwareAcceleration)

/-- Modelled from the spec: `ICanvasDeviceInternal::GetD2DDevice` is not among
the sources; the Direct2D device the object wraps, `RO_E_CLOSED` once closed. -/
def CanvasDevice.GetD2DDevice (device : ICanvasDevice) (t : CanvasDeviceTests) :
    Option (Except HRESULT ID2D1Device) :=
  match t.deref device with
  | none => none
  | some c =>
    match c.m_d2dDevice with
    | none => some (.error RO_E_CLOSED)
    | some d => some (.ok d)

/-- A step of a test on the fixture. -/
inductive DeviceCall where
  | create (debugLevel : CanvasDebugLevel) (hardwareAcceleration : CanvasHardwareAcceleration)
  | createOnDirect3DDevice (debugLevel : CanvasDebugLevel)
      (direct3DDevice : Option IDirect3DDevice)
  | getOrCreate (d2dDevice : Option ID2D1Device)
  | release (device : ICanvasDevice)
  | close (device : ICanvasDevice)
  | setHardwareEnabled (enable : Bool)
deriving DecidableEq, Repr

/-- The state a step leaves.  A call through a pointer to no live object, or
with a Direct2D device no factory has made yet, is no step at all. -/
def DeviceCall.run (c : DeviceCall) (t : CanvasDeviceTests) : CanvasDeviceTests :=
  match c with
  | .create debugLevel hardwareAcceleration =>
    (CanvasDeviceManager.Create debugLevel hardwareAcceleration t).2
  | .createOnDirect3DDevice debugLevel direct3DDevice =>
    (CanvasDeviceManager.Create_Direct3DDevice debugLevel direct3DDevice t).2
  | .getOrCreate d2dDevice =>
    match d2dDevice with
    | some (.created n) =>
      if n < t.natives then (CanvasDeviceManager.GetOrCreate d2dDevice t).2 else t
    | _ => (CanvasDeviceManager.GetOrCreate d2dDevice t).2
  | .release device => (t.Release device).getD t
  | .close device => ((CanvasDevice.Close device t).map Prod.snd).getD t
  | .setHardwareEnabled enable =>
    { t with m_resourceCreationAdapter := t.m_resourceCreationAdapter.SetHardwareEnabled enable }

/-- The state a sequence of steps leaves. -/
def runDeviceCalls (calls : List DeviceCall) (t : CanvasDeviceTests) : CanvasDeviceTests :=
  calls.foldl (fun acc c => c.run acc) t

/-- The cache agrees with the objects: every referenced object that wraps a
Direct2D device is entered under that device, no Direct2D device is entered
twice, and every entered device that a factory made has been made already. -/
def CacheConsistent (t : CanvasDeviceTests) : Prop :=
  (∀ device c d, t.objects[device]? = some c → c.referenced = true → c.m_d2dDevice = some d →
    (d, device) ∈ t.m_deviceManager.m_resources) ∧
  (∀ e1 ∈ t.m_deviceManager.m_resources, ∀ e2 ∈ t.m_deviceManager.m_resources,
    e1.1 = e2.1 → e1.2 = e2.2) ∧
  (∀ entry ∈ t.m_deviceManager.m_resources, ∀ n, entry.1 = .created n → n < t.natives)

/-! ## Theorems: CanvasControl -/

theorem InvalidateImpl_of_drawNeeded (hrAdd : HRESULT) (w : World)
    (h : w.control.m_drawNeeded = true) : InvalidateImpl hrAdd w = (.ok (), w) := by
  simp [InvalidateImpl, h]

theorem Invalidate_of_drawNeeded (hrAdd : HRESULT) (w : World)
    (h : w.control.m_drawNeeded = true) : Invalidate hrAdd w = (S_OK, w) := by
  simp [Invalidate, InvalidateImpl_of_drawNeeded hrAdd w h, ExceptionBoundary]

theorem InvalidateImpl_of_not_drawNeeded (hrAdd : HRESULT) (w : World)
    (h : w.control.m_drawNeeded = false) (hok : FAILED hrAdd = false) :
    InvalidateImpl hrAdd w =
      (.ok (),
       { control := { w.control with m_drawNeeded := true,
                                     m_renderingEventToken := w.xaml.nextRenderingToken },
         xaml := { w.xaml with rendering := w.xaml.rendering ++ [w.xaml.nextRenderingToken],
                               nextRenderingToken := w.xaml.nextRenderingToken + 1 } }) := by
  simp [InvalidateImpl, h, AddCompositionRenderingCallback, ThrowIfFailed, hok]

theorem InvalidateImpl_drawNeeded (hrAdd : HRESULT) (w : World) :
    (InvalidateImpl hrAdd w).2.control.m_drawNeeded = true := by
  unfold InvalidateImpl AddCompositionRenderingCallback ThrowIfFailed
  cases hd : w.control.m_drawNeeded <;> cases hf : FAILED hrAdd <;> simp [hd]

theorem InvalidateTimes_of_drawNeeded (hrs : List HRESULT) (w : World)
    (h : w.control.m_drawNeeded = true) : InvalidateTimes hrs w = w := by
  induction hrs with
  | nil => rfl
  | cons hr rest ih =>
    simp only [InvalidateTimes, List.foldl_cons] at ih ⊢
    rw [Invalidate_of_drawNeeded hr w h]
    exact ih

/-- C1: assuming the compositor accepts the registration, `Invalidate()` on a
control with a redraw pending returns `S_OK` and changes nothing; on a control
with none pending it returns `S_OK`, sets `m_drawNeeded`, registers exactly one
more rendering callback, stores that callback's token in
`m_renderingEventToken` and leaves every other member and platform fact alone;
and any number of further `Invalidate()` calls (whatever the compositor would
answer them) leave the state one call produces. -/
theorem Invalidate_coalesces (hrAdd : HRESULT) (hrs : List HRESULT) (w : World)
    (hok : FAILED hrAdd = false) :
    (w.control.m_drawNeeded = true → Invalidate hrAdd w = (S_OK, w)) ∧
    (w.control.m_drawNeeded = false →
      (Invalidate hrAdd w).1 = S_OK ∧
      (Invalidate hrAdd w).2.control.m_drawNeeded = true ∧
      (Invalidate hrAdd w).2.xaml.rendering =
        w.xaml.rendering ++ [(Invalidate hrAdd w).2.control.m_renderingEventToken] ∧
      (Invalidate hrAdd w).2.control =
        { w.control with
            m_drawNeeded := true,
            m_renderingEventToken := (Invalidate hrAdd w).2.control.m_renderingEventToken } ∧
      (Invalidate hrAdd w).2.xaml.imageSources = w.xaml.imageSources ∧
      (Invalidate hrAdd w).2.xaml.imageControlSource = w.xaml.imageControlSource ∧
      (Invalidate hrAdd w).2.xaml.imageControlMeasured = w.xaml.imageControlMeasured ∧
      (Invalidate hrAdd w).2.xaml.invocations = w.xaml.invocations) ∧
    InvalidateTimes (hrAdd :: hrs) w = (Invalidate hrAdd w).2 := by
  refine ⟨fun h => Invalidate_of_drawNeeded hrAdd w h, fun h => ?_, ?_⟩
  · simp [Invalidate, InvalidateImpl_of_not_drawNeeded hrAdd w h hok, ExceptionBoundary]
  · simp only [InvalidateTimes, List.foldl_cons]
    exact InvalidateTimes_of_drawNeeded hrs _ (InvalidateImpl_drawNeeded hrAdd w)

/-- C1 at a concrete input: three calls on a new control, the last of which the
compositor would have refused, leave the state of the first. -/
theorem Invalidate_coalesces_witness :
    FAILED S_OK = false ∧
    InvalidateTimes [S_OK, S_OK, E_FAIL] World.initial = (Invalidate S_OK World.initial).2 ∧
    (Invalidate S_OK World.initial).2.xaml.rendering = [1] :=
  ⟨by decide,
   (Invalidate_coalesces S_OK [S_OK, E_FAIL] World.initial (by decide)).2.2,
   by decide⟩

/-- C9: a `SizeChanged` event before `Loaded`, and one after `Loaded` whose
new size truncates to (`m_currentWidth`, `m_currentHeight`), returns `S_OK`
and changes neither the control nor the platform; an event after `Loaded`
whose truncated new size differs in width or height does exactly what
`Invalidate()` does.  (After `Loaded` the event's size is one `get_NewSize`
hands over.) -/
theorem OnSizeChanged_invalidates_iff (args : ISizeChangedEventArgs) (hrAdd : HRESULT)
    (w : World) :
    (w.control.m_isLoaded = false → OnSizeChanged args hrAdd w = (S_OK, w)) ∧
    (w.control.m_isLoaded = true → FAILED args.get_NewSize.1 = false →
      static_cast_int args.get_NewSize.2.Width = w.control.m_currentWidth ∧
        static_cast_int args.get_NewSize.2.Height = w.control.m_currentHeight →
      OnSizeChanged args hrAdd w = (S_OK, w)) ∧
    (w.control.m_isLoaded = true → FAILED args.get_NewSize.1 = false →
      ¬ (static_cast_int args.get_NewSize.2.Width = w.control.m_currentWidth ∧
        static_cast_int args.get_NewSize.2.Height = w.control.m_currentHeight) →
      OnSizeChanged args hrAdd w = Invalidate hrAdd w) := by
  refine ⟨fun hl => ?_, fun hl hok hsame => ?_, fun hl hok hdiff => ?_⟩
  · simp [OnSizeChanged, hl, ExceptionBoundary]
  · simp [OnSizeChanged, hl, ThrowIfFailed, hok, hsame.1, hsame.2, ExceptionBoundary]
  · have hne : (static_cast_int args.get_NewSize.2.Width == w.control.m_currentWidth
        && static_cast_int args.get_NewSize.2.Height == w.control.m_currentHeight) = false := by
      rw [Bool.eq_false_iff]
      intro hb
      simp only [Bool.and_eq_true, beq_iff_eq] at hb
      exact hdiff hb
    simp [OnSizeChanged, hl, ThrowIfFailed, hok, hne, Invalidate]

/-- C9 at concrete inputs.  A new control is loaded and the draw that scheduled
has been taken up (`ClearDrawNeeded`): the control is loaded, no draw is needed,
no rendering callback is registered and the current size is 0 by 0.  An event
announcing 640.5 by 480 then does what `Invalidate()` does, which here sets
`m_drawNeeded` and registers a callback under a new token; an event announcing
0.5 by 0.25, which truncates to the current size, changes nothing. -/
theorem OnSizeChanged_invalidates_iff_witness :
    (ClearDrawNeeded S_OK (OnLoaded S_OK World.initial).2).2.control.m_isLoaded = true ∧
    (ClearDrawNeeded S_OK (OnLoaded S_OK World.initial).2).2.control.m_drawNeeded = false ∧
    (ClearDrawNeeded S_OK (OnLoaded S_OK World.initial).2).2.xaml.rendering = [] ∧
    OnSizeChanged { get_NewSize := (S_OK, { Width := Rat.divInt 1281 2, Height := 480 }) }
        S_OK (ClearDrawNeeded S_OK (OnLoaded S_OK World.initial).2).2
      = Invalidate S_OK (ClearDrawNeeded S_OK (OnLoaded S_OK World.initial).2).2 ∧
    (OnSizeChanged { get_NewSize := (S_OK, { Width := Rat.divInt 1281 2, Height := 480 }) }
        S_OK (ClearDrawNeeded S_OK (OnLoaded S_OK World.initial).2).2).2.control.m_drawNeeded
      = true ∧
    (OnSizeChanged { get_NewSize := (S_OK, { Width := Rat.divInt 1281 2, Height := 480 }) }
        S_OK (ClearDrawNeeded S_OK (OnLoaded S_OK World.initial).2).2).2.xaml.rendering
      = [2] ∧
    (OnSizeChanged { get_NewSize := (S_OK, { Width := Rat.divInt 1281 2, Height := 480 }) }
        S_OK (ClearDrawNeeded S_OK (OnLoaded S_OK World.initial).2).2).2.control.m_renderingEventToken
      = 2 ∧
    OnSizeChanged
        { get_NewSize := (S_OK, { Width := Rat.divInt 1 2, Height := Rat.divInt 1 4 }) }
        S_OK (ClearDrawNeeded S_OK (OnLoaded S_OK World.initial).2).2
      = (S_OK, (ClearDrawNeeded S_OK (OnLoaded S_OK World.initial).2).2) :=
  ⟨by decide, by decide, by decide,
   (OnSizeChanged_invalidates_iff
      { get_NewSize := (S_OK, { Width := Rat.divInt 1281 2, Height := 480 }) }
      S_OK (ClearDrawNeeded S_OK (OnLoaded S_OK World.initial).2).2).2.2
      (by decide) (by decide) (by decide),
   by decide, by decide, by decide,
   (OnSizeChanged_invalidates_iff
      { get_NewSize := (S_OK, { Width := Rat.divInt 1 2, Height := Rat.divInt 1 4 }) }
      S_OK (ClearDrawNeeded S_OK (OnLoaded S_OK World.initial).2).2).2.1
      (by decide) (by decide) (by decide)⟩

/-- What a successful `EnsureSizeDependentResources` did: either it found an
image source of the right size and returned at once, or it went through the
creation path to its end. -/
theorem EnsureSizeDependentResources_ok_inv (ndebug : Bool) (p : LayoutAnswers) (w w' : World)
    (h : EnsureSizeDependentResources ndebug p w = .ok (.ok (), w')) :
    (w.control.m_canvasImageSource.isSome = true ∧
      static_cast_int p.get_ActualWidth.2 = w.control.m_currentWidth ∧
      static_cast_int p.get_ActualHeight.2 = w.control.m_currentHeight ∧ w' = w) ∨
    (¬ (w.control.m_canvasImageSource.isSome = true ∧
      static_cast_int p.get_ActualWidth.2 = w.control.m_currentWidth ∧
      static_cast_int p.get_ActualHeight.2 = w.control.m_currentHeight) ∧
     w' =
      { control := { w.control with
          m_canvasImageSource := some
            { id := w.xaml.imageSources.length, device := w.control.m_canvasDevice,
              width := static_cast_int p.get_ActualWidth.2,
              height := static_cast_int p.get_ActualHeight.2 },
          m_currentWidth := static_cast_int p.get_ActualWidth.2,
          m_currentHeight := static_cast_int p.get_ActualHeight.2 },
        xaml := { w.xaml with
          imageSources := w.xaml.imageSources ++
            [{ id := w.xaml.imageSources.length, device := w.control.m_canvasDevice,
               width := static_cast_int p.get_ActualWidth.2,
               height := static_cast_int p.get_ActualHeight.2 }],
          imageControlSource := some
            { id := w.xaml.imageSources.length, device := w.control.m_canvasDevice,
              width := static_cast_int p.get_ActualWidth.2,
              height := static_cast_int p.get_ActualHeight.2 } } }) := by
  unfold EnsureSizeDependentResources at h
  split at h
  · contradiction
  split at h
  · contradiction
  split at h
  · simp at h
  split at h
  · simp at h
  split at h
  · simp at h
  dsimp only at h
  split at h
  · contradiction
  split at h
  · contradiction
  split at h
  · rename_i hc
    simp only [Bool.and_eq_true, beq_iff_eq] at hc
    simp only [Except.ok.injEq, Prod.mk.injEq, true_and] at h
    exact Or.inl ⟨hc.1, hc.2.1, hc.2.2, h.symm⟩
  · rename_i hc
    simp only [Bool.and_eq_true, beq_iff_eq] at hc
    refine Or.inr ⟨hc, ?_⟩
    unfold CreateCanvasImageSource at h
    cases hc1 : ThrowIfFailed p.CreateCanvasImageSource with
    | error e => rw [hc1] at h; simp at h
    | ok u =>
      rw [hc1] at h
      dsimp only at h
      split at h
      · simp at h
      split at h
      · simp at h
      simp only [Except.ok.injEq, Prod.mk.injEq, true_and] at h
      exact h.symm

/-- A call that returns without an exception and found an image source of the
right size changed nothing, whatever it returned. -/
theorem EnsureSizeDependentResources_reuse (ndebug : Bool) (p : LayoutAnswers) (w : World)
    (hsrc : w.control.m_canvasImageSource.isSome = true)
    (hw : static_cast_int p.get_ActualWidth.2 = w.control.m_currentWidth)
    (hh : static_cast_int p.get_ActualHeight.2 = w.control.m_currentHeight)
    (r : Except HRESULT Unit) (w' : World)
    (h : EnsureSizeDependentResources ndebug p w = .ok (r, w')) : w' = w := by
  unfold EnsureSizeDependentResources at h
  split at h
  · contradiction
  split at h
  · contradiction
  split at h
  · simp only [Except.ok.injEq, Prod.mk.injEq] at h; exact h.2.symm
  split at h
  · simp only [Except.ok.injEq, Prod.mk.injEq] at h; exact h.2.symm
  split at h
  · simp only [Except.ok.injEq, Prod.mk.injEq] at h; exact h.2.symm
  dsimp only at h
  split at h
  · contradiction
  split at h
  · contradiction
  simp only [hsrc, hw, hh, beq_self_eq_true, Bool.and_self, if_true, Except.ok.injEq,
    Prod.mk.injEq] at h
  exact h.2.symm

/-- When every assertion holds (or assertions are compiled out) and XAML
refuses nothing, `EnsureSizeDependentResources` returns normally. -/
theorem EnsureSizeDependentResources_returns (ndebug : Bool) (p : LayoutAnswers) (w : World)
    (hassert : ndebug = true ∨
      (w.control.m_canvasDevice.isSome = true ∧ w.control.m_isLoaded = true ∧
       p.get_ActualWidth.2 ≤ (INT_MAX : ℚ) ∧ p.get_ActualHeight.2 ≤ (INT_MAX : ℚ)))
    (h1 : FAILED p.As_IFrameworkElement = false)
    (h2 : FAILED p.get_ActualWidth.1 = false)
    (h3 : FAILED p.get_ActualHeight.1 = false)
    (h4 : FAILED p.CreateCanvasImageSource = false)
    (h5 : FAILED p.As_IImageSource = false)
    (h6 : FAILED p.put_Source = false) :
    ∃ w', EnsureSizeDependentResources ndebug p w = .ok (.ok (), w') := by
  have a1 : assert ndebug w.control.m_canvasDevice.isSome = .ok () := by
    rcases hassert with h | h <;> simp [assert, h]
  have a2 : assert ndebug w.control.m_isLoaded = .ok () := by
    rcases hassert with h | h <;> simp [assert, h]
  have a3 : assert ndebug (decide (p.get_ActualWidth.2 ≤ (INT_MAX : ℚ))) = .ok () := by
    rcases hassert with h | h <;> simp [assert, h]
  have a4 : assert ndebug (decide (p.get_ActualHeight.2 ≤ (INT_MAX : ℚ))) = .ok () := by
    rcases hassert with h | h <;> simp [assert, h]
  have t : ∀ hr : HRESULT, FAILED hr = false → ThrowIfFailed hr = .ok () := by
    intro hr hf
    simp [ThrowIfFailed, hf]
  unfold EnsureSizeDependentResources CreateCanvasImageSource
  simp only [a1, a2, a3, a4, t _ h1, t _ h2, t _ h3, t _ h4, t _ h5, t _ h6]
  split_ifs
  · exact ⟨_, rfl⟩
  · exact ⟨_, rfl⟩

/-- C10: a call that finds an image source and an actual size truncating to
(`m_currentWidth`, `m_currentHeight`) creates nothing and changes nothing; any
other call that returns normally created exactly one image source, on the
control's device and with the truncated actual size, stored it, recorded the
size and made it the `Source` of the `Image` element, touching nothing else.
After every call that returns normally the image source is non-null (so
`CallDrawHandlers` does not fault on it) and the recorded size is the
truncated actual size; and the call does return normally whenever its
assertions hold and XAML refuses nothing. -/
theorem EnsureSizeDependentResources_reuses_or_replaces (ndebug : Bool) (p : LayoutAnswers)
    (d : DrawAnswers) (hrAdd : HRESULT) (w : World) :
    (w.control.m_canvasImageSource.isSome = true ∧
        static_cast_int p.get_ActualWidth.2 = w.control.m_currentWidth ∧
        static_cast_int p.get_ActualHeight.2 = w.control.m_currentHeight →
      ∀ r w', EnsureSizeDependentResources ndebug p w = .ok (r, w') → w' = w) ∧
    (¬ (w.control.m_canvasImageSource.isSome = true ∧
        static_cast_int p.get_ActualWidth.2 = w.control.m_currentWidth ∧
        static_cast_int p.get_ActualHeight.2 = w.control.m_currentHeight) →
      ∀ w', EnsureSizeDependentResources ndebug p w = .ok (.ok (), w') →
        ∃ source : CanvasImageSource,
          source.device = w.control.m_canvasDevice ∧
          source.width = static_cast_int p.get_ActualWidth.2 ∧
          source.height = static_cast_int p.get_ActualHeight.2 ∧
          w'.xaml.imageSources = w.xaml.imageSources ++ [source] ∧
          w'.control =
            { w.control with
                m_canvasImageSource := some source,
                m_currentWidth := static_cast_int p.get_ActualWidth.2,
                m_currentHeight := static_cast_int p.get_ActualHeight.2 } ∧
          w'.xaml.imageControlSource = some source ∧
          w'.xaml.rendering = w.xaml.rendering ∧
          w'.xaml.nextRenderingToken = w.xaml.nextRenderingToken ∧
          w'.xaml.imageControlMeasured = w.xaml.imageControlMeasured ∧
          w'.xaml.invocations = w.xaml.invocations) ∧
    (∀ w', EnsureSizeDependentResources ndebug p w = .ok (.ok (), w') →
      w'.control.m_canvasImageSource.isSome = true ∧
      w'.control.m_currentWidth = static_cast_int p.get_ActualWidth.2 ∧
      w'.control.m_currentHeight = static_cast_int p.get_ActualHeight.2 ∧
      CallDrawHandlers d hrAdd w' ≠ .error .nullDereference) ∧
    ((ndebug = true ∨
        (w.control.m_canvasDevice.isSome = true ∧ w.control.m_isLoaded = true ∧
         p.get_ActualWidth.2 ≤ (INT_MAX : ℚ) ∧ p.get_ActualHeight.2 ≤ (INT_MAX : ℚ))) →
      FAILED p.As_IFrameworkElement = false ∧ FAILED p.get_ActualWidth.1 = false ∧
        FAILED p.get_ActualHeight.1 = false ∧ FAILED p.CreateCanvasImageSource = false ∧
        FAILED p.As_IImageSource = false ∧ FAILED p.put_Source = false →
      ∃ w', EnsureSizeDependentResources ndebug p w = .ok (.ok (), w')) := by
  refine ⟨fun hre r w' h =>
      EnsureSizeDependentResources_reuse ndebug p w hre.1 hre.2.1 hre.2.2 r w' h,
    fun hne w' h => ?_, fun w' h => ?_, fun ha hf =>
      EnsureSizeDependentResources_returns ndebug p w ha hf.1 hf.2.1 hf.2.2.1 hf.2.2.2.1
        hf.2.2.2.2.1 hf.2.2.2.2.2⟩
  · rcases EnsureSizeDependentResources_ok_inv ndebug p w w' h with hre | ⟨_, hw'⟩
    · exact absurd ⟨hre.1, hre.2.1, hre.2.2.1⟩ hne
    · subst hw'
      exact ⟨_, rfl, rfl, rfl, rfl, rfl, rfl, rfl, rfl, rfl, rfl⟩
  · have hsome : w'.control.m_canvasImageSource.isSome = true ∧
        w'.control.m_currentWidth = static_cast_int p.get_ActualWidth.2 ∧
        w'.control.m_currentHeight = static_cast_int p.get_ActualHeight.2 := by
      rcases EnsureSizeDependentResources_ok_inv ndebug p w w' h with hre | ⟨_, hw'⟩
      · obtain ⟨h1, h2, h3, h4⟩ := hre
        subst h4
        exact ⟨h1, h2.symm, h3.symm⟩
      · subst hw'
        exact ⟨rfl, rfl, rfl⟩
    refine ⟨hsome.1, hsome.2.1, hsome.2.2, ?_⟩
    unfold CallDrawHandlers
    cases hs : w'.control.m_canvasImageSource with
    | none => rw [hs] at hsome; simp at hsome
    | some src =>
      dsimp only
      split
      · simp
      split
      · simp
      split <;> simp

/-- C10 at a concrete input: a loaded control without an image source, laid
out at 640.5 by 480, gets a 640 by 480 image source. -/
theorem EnsureSizeDependentResources_reuses_or_replaces_witness :
    (∃ w', EnsureSizeDependentResources false
        { As_IFrameworkElement := S_OK, get_ActualWidth := (S_OK, Rat.divInt 1281 2),
          get_ActualHeight := (S_OK, 480), CreateCanvasImageSource := S_OK,
          As_IImageSource := S_OK, put_Source := S_OK }
        (OnLoaded S_OK World.initial).2 = .ok (.ok (), w')) ∧
    ((OnLoaded S_OK World.initial).2.control.m_canvasImageSource.isSome = false) ∧
    (∀ w', EnsureSizeDependentResources false
        { As_IFrameworkElement := S_OK, get_ActualWidth := (S_OK, Rat.divInt 1281 2),
          get_ActualHeight := (S_OK, 480), CreateCanvasImageSource := S_OK,
          As_IImageSource := S_OK, put_Source := S_OK }
        (OnLoaded S_OK World.initial).2 = .ok (.ok (), w') →
      w'.control.m_canvasImageSource.isSome = true ∧
      w'.control.m_currentWidth = 640 ∧
      w'.control.m_currentHeight = 480 ∧
      CallDrawHandlers { CreateDrawingSession := (S_OK, 0), As_IClosable := S_OK, Close := S_OK }
        S_OK w' ≠ .error .nullDereference) :=
  ⟨(EnsureSizeDependentResources_reuses_or_replaces false
      { As_IFrameworkElement := S_OK, get_ActualWidth := (S_OK, Rat.divInt 1281 2),
        get_ActualHeight := (S_OK, 480), CreateCanvasImageSource := S_OK,
        As_IImageSource := S_OK, put_Source := S_OK }
      { CreateDrawingSession := (S_OK, 0), As_IClosable := S_OK, Close := S_OK } S_OK
      (OnLoaded S_OK World.initial).2).2.2.2
      (Or.inr ⟨by decide, by decide, by decide, by decide⟩)
      ⟨by decide, by decide, by decide, by decide, by decide, by decide⟩,
   by decide,
   (EnsureSizeDependentResources_reuses_or_replaces false
      { As_IFrameworkElement := S_OK, get_ActualWidth := (S_OK, Rat.divInt 1281 2),
        get_ActualHeight := (S_OK, 480), CreateCanvasImageSource := S_OK,
        As_IImageSource := S_OK, put_Source := S_OK }
      { CreateDrawingSession := (S_OK, 0), As_IClosable := S_OK, Close := S_OK } S_OK
      (OnLoaded S_OK World.initial).2).2.2.1⟩

theorem InvalidateImpl_frame (hrAdd : HRESULT) (w : World) :
    (InvalidateImpl hrAdd w).2.xaml.invocations = w.xaml.invocations ∧
    (InvalidateImpl hrAdd w).2.control.m_createResourcesEventList
      = w.control.m_createResourcesEventList ∧
    (InvalidateImpl hrAdd w).2.control.m_isLoaded = w.control.m_isLoaded := by
  unfold InvalidateImpl AddCompositionRenderingCallback ThrowIfFailed
  cases hd : w.control.m_drawNeeded <;> cases hf : FAILED hrAdd <;> simp

theorem Invoke_frame (h : Handler) (sender args : Pointer) (hrAdd : HRESULT) (w : World) :
    (h.Invoke sender args hrAdd w).2.xaml.invocations
      = w.xaml.invocations ++ [{ handler := h, sender := sender, args := args }] ∧
    (h.Invoke sender args hrAdd w).2.control.m_createResourcesEventList
      = w.control.m_createResourcesEventList ∧
    (h.Invoke sender args hrAdd w).2.control.m_isLoaded = w.control.m_isLoaded := by
  unfold Handler.Invoke
  cases h.callsInvalidate
  · simp
  · simp only [if_true]
    refine ⟨?_, ?_, ?_⟩
    · rw [(InvalidateImpl_frame hrAdd _).1]
    · rw [(InvalidateImpl_frame hrAdd _).2.1]
    · rw [(InvalidateImpl_frame hrAdd _).2.2]

theorem FireAll_frame (handlers : List (EventRegistrationToken × Handler))
    (sender args : Pointer) (hrAdd : HRESULT) (w : World) :
    (FireAll handlers sender args hrAdd w).xaml.invocations
      = w.xaml.invocations ++
          handlers.map (fun p => { handler := p.2, sender := sender, args := args }) ∧
    (FireAll handlers sender args hrAdd w).control.m_createResourcesEventList
      = w.control.m_createResourcesEventList ∧
    (FireAll handlers sender args hrAdd w).control.m_isLoaded = w.control.m_isLoaded := by
  induction handlers generalizing w with
  | nil => simp [FireAll]
  | cons p rest ih =>
    have hstep : FireAll (p :: rest) sender args hrAdd w
        = FireAll rest sender args hrAdd (p.2.Invoke sender args hrAdd w).2 := by
      simp [FireAll]
    rw [hstep]
    obtain ⟨i1, i2, i3⟩ := Invoke_frame p.2 sender args hrAdd w
    obtain ⟨f1, f2, f3⟩ := ih (p.2.Invoke sender args hrAdd w).2
    refine ⟨?_, ?_, ?_⟩
    · rw [f1, i1]; simp
    · rw [f2, i2]
    · rw [f3, i3]

theorem OnLoaded_frame (hrAdd : HRESULT) (w : World) :
    (OnLoaded hrAdd w).2.xaml.invocations = w.xaml.invocations ++ fired (registered w) ∧
    (OnLoaded hrAdd w).2.control.m_createResourcesEventList
      = w.control.m_createResourcesEventList ∧
    (OnLoaded hrAdd w).2.control.m_isLoaded = true := by
  unfold OnLoaded
  dsimp only
  obtain ⟨f1, f2, f3⟩ := FireAll_frame w.control.m_createResourcesEventList.m_handlers
    .this .nullptr hrAdd { w with control := { w.control with m_isLoaded := true } }
  refine ⟨?_, ?_, ?_⟩
  · rw [(InvalidateImpl_frame hrAdd _).1, f1]
    simp [fired, registered, List.map_map, Function.comp_def]
  · rw [(InvalidateImpl_frame hrAdd _).2.1, f2]
  · rw [(InvalidateImpl_frame hrAdd _).2.2, f3]

theorem addedBy_cons (c : CreatingResourcesCall) (rest : List CreatingResourcesCall) :
    addedBy (c :: rest) = addedBy [c] ++ addedBy rest := by
  cases c <;> simp [addedBy, List.filterMap_cons]

theorem run_before_Loaded (c : CreatingResourcesCall) (w : World)
    (h : w.control.m_isLoaded = false) :
    (c.run w).control.m_isLoaded = false ∧ (c.run w).xaml.invocations = w.xaml.invocations := by
  cases c with
  | add value hrAdd =>
    simp [CreatingResourcesCall.run, add_CreatingResources, h]
  | remove token =>
    simp [CreatingResourcesCall.run, remove_CreatingResources, h]

theorem runCalls_before_Loaded (calls : List CreatingResourcesCall) (w : World)
    (h : w.control.m_isLoaded = false) :
    (runCalls calls w).control.m_isLoaded = false ∧
    (runCalls calls w).xaml.invocations = w.xaml.invocations := by
  induction calls generalizing w with
  | nil => exact ⟨h, rfl⟩
  | cons c rest ih =>
    have hstep : runCalls (c :: rest) w = runCalls rest (c.run w) := by simp [runCalls]
    rw [hstep]
    obtain ⟨r1, r2⟩ := run_before_Loaded c w h
    obtain ⟨i1, i2⟩ := ih (c.run w) r1
    exact ⟨i1, i2.trans r2⟩

theorem add_CreatingResources_after_Loaded (value : Handler) (hrAdd : HRESULT) (w : World)
    (h : w.control.m_isLoaded = true) :
    (add_CreatingResources value hrAdd w).2.2.xaml.invocations
      = w.xaml.invocations ++ [{ handler := value, sender := .this, args := .nullptr }] ∧
    (add_CreatingResources value hrAdd w).2.2.control.m_isLoaded = true ∧
    registered (add_CreatingResources value hrAdd w).2.2 = registered w ++ [value] := by
  unfold add_CreatingResources
  simp only [h, if_true]
  refine ⟨?_, ?_, ?_⟩
  · rw [(Invoke_frame value .this .nullptr hrAdd _).1]
  · rw [(Invoke_frame value .this .nullptr hrAdd _).2.2]
  · unfold registered
    rw [(Invoke_frame value .this .nullptr hrAdd _).2.1]
    simp [EventSource.Add]

theorem run_after_Loaded (c : CreatingResourcesCall) (w : World)
    (h : w.control.m_isLoaded = true) :
    (c.run w).control.m_isLoaded = true ∧
    (c.run w).xaml.invocations = w.xaml.invocations ++ fired (addedBy [c]) ∧
    List.Sublist (registered (c.run w)) (registered w ++ addedBy [c]) := by
  cases c with
  | add value hrAdd =>
    obtain ⟨a1, a2, a3⟩ := add_CreatingResources_after_Loaded value hrAdd w h
    refine ⟨a2, ?_, ?_⟩
    · simp only [CreatingResourcesCall.run]
      rw [a1]
      simp [fired, addedBy]
    · simp only [CreatingResourcesCall.run]
      rw [a3]
      simp [addedBy]
  | remove token =>
    refine ⟨?_, ?_, ?_⟩
    · simp [CreatingResourcesCall.run, remove_CreatingResources, h]
    · simp [CreatingResourcesCall.run, remove_CreatingResources, fired, addedBy]
    · simp only [CreatingResourcesCall.run, remove_CreatingResources, registered,
        EventSource.Remove, addedBy, List.filterMap_cons, List.filterMap_nil, List.append_nil]
      exact List.Sublist.map _ (List.filter_sublist _)

theorem runCalls_after_Loaded (calls : List CreatingResourcesCall) (w : World)
    (h : w.control.m_isLoaded = true) :
    (runCalls calls w).control.m_isLoaded = true ∧
    (runCalls calls w).xaml.invocations = w.xaml.invocations ++ fired (addedBy calls) ∧
    List.Sublist (registered (runCalls calls w)) (registered w ++ addedBy calls) := by
  induction calls generalizing w with
  | nil => simp [runCalls, addedBy, fired, h]
  | cons c rest ih =>
    have hstep : runCalls (c :: rest) w = runCalls rest (c.run w) := by simp [runCalls]
    rw [hstep, addedBy_cons]
    obtain ⟨r1, r2, r3⟩ := run_after_Loaded c w h
    obtain ⟨i1, i2, i3⟩ := ih (c.run w) r1
    refine ⟨i1, ?_, ?_⟩
    · rw [i2, r2]
      simp [fired]
    · rw [← List.append_assoc]
      exact i3.trans (List.Sublist.append_right r3 _)

/-- C4: take any calls of `add_CreatingResources` / `remove_CreatingResources`
on a control that is not loaded, then `Loaded`, then any further such calls.
The calls before `Loaded` invoke nothing; `OnLoaded` invokes each delegate
registered at that moment exactly once, in order, with the control as sender;
every `add_CreatingResources` on a loaded control invokes the added delegate
exactly once before it returns, with the control as sender; over the whole
sequence the invocations are exactly one per delegate registered at `Loaded`
followed by one per delegate added afterwards; and every delegate still
registered at the end is among those. -/
theorem CreatingResources_fired_exactly_once (pre post : List CreatingResourcesCall)
    (hrLoad : HRESULT) (w : World) (hnl : w.control.m_isLoaded = false) :
    (runCalls pre w).xaml.invocations = w.xaml.invocations ∧
    (OnLoaded hrLoad (runCalls pre w)).2.xaml.invocations
      = w.xaml.invocations ++ fired (registered (runCalls pre w)) ∧
    (∀ (value : Handler) (hrAdd : HRESULT) (w' : World), w'.control.m_isLoaded = true →
      (add_CreatingResources value hrAdd w').2.2.xaml.invocations
        = w'.xaml.invocations ++ fired [value]) ∧
    (runCalls post (OnLoaded hrLoad (runCalls pre w)).2).xaml.invocations
      = w.xaml.invocations ++ fired (registered (runCalls pre w) ++ addedBy post) ∧
    List.Sublist (registered (runCalls post (OnLoaded hrLoad (runCalls pre w)).2))
      (registered (runCalls pre w) ++ addedBy post) := by
  obtain ⟨_, p2⟩ := runCalls_before_Loaded pre w hnl
  obtain ⟨l1, l2, l3⟩ := OnLoaded_frame hrLoad (runCalls pre w)
  obtain ⟨_, q2, q3⟩ := runCalls_after_Loaded post (OnLoaded hrLoad (runCalls pre w)).2 l3
  have hreg : registered (OnLoaded hrLoad (runCalls pre w)).2 = registered (runCalls pre w) := by
    unfold registered
    rw [l2]
  refine ⟨p2, ?_, ?_, ?_, ?_⟩
  · rw [l1, p2]
  · intro value hrAdd w' hl
    exact (add_CreatingResources_after_Loaded value hrAdd w' hl).1
  · rw [q2, l1, p2]
    simp [fired]
  · rw [hreg] at q3
    exact q3

/-- C4 at a concrete input: two delegates are added to a new control and the
first is removed again; `Loaded` arrives; a third delegate is added.  The second
and the third delegate have been invoked, once each. -/
theorem CreatingResources_fired_exactly_once_witness :
    World.initial.control.m_isLoaded = false ∧
    (runCalls [.add { id := 3, callsInvalidate := true, result := S_OK } S_OK]
        (OnLoaded S_OK
          (runCalls
            [.add { id := 1, callsInvalidate := false, result := S_OK } S_OK,
             .add { id := 2, callsInvalidate := false, result := E_FAIL } S_OK,
             .remove 1]
            World.initial)).2).xaml.invocations
      = [{ handler := { id := 2, callsInvalidate := false, result := E_FAIL },
           sender := .this, args := .nullptr },
         { handler := { id := 3, callsInvalidate := true, result := S_OK },
           sender := .this, args := .nullptr }] :=
  ⟨by decide,
   (CreatingResources_fired_exactly_once
      [.add { id := 1, callsInvalidate := false, result := S_OK } S_OK,
       .add { id := 2, callsInvalidate := false, result := E_FAIL } S_OK,
       .remove 1]
      [.add { id := 3, callsInvalidate := true, result := S_OK } S_OK]
      S_OK World.initial (by decide)).2.2.2.1⟩

/-! ## Theorems: the device manager -/

theorem MakeD3D11Device_Auto (a : TestDeviceResourceCreationAdapter) :
    CanvasDeviceManager.MakeD3D11Device a .Auto =
      (.ok (if a.m_allowHardware then .On else .Off),
       { a with
          m_numD3dDeviceCreationCalls := a.m_numD3dDeviceCreationCalls + 1,
          m_retrievableHarwareAcceleration := if a.m_allowHardware then .On else .Off }) := by
  cases h : a.m_allowHardware <;>
    simp [CanvasDeviceManager.MakeD3D11Device,
      TestDeviceResourceCreationAdapter.TryCreateD3DDevice, h]

theorem MakeD3D11Device_explicit (a : TestDeviceResourceCreationAdapter)
    (requested : CanvasHardwareAcceleration)
    (hreq : requested = .On ∨ requested = .Off)
    (hhw : requested = .On → a.m_allowHardware = true) :
    CanvasDeviceManager.MakeD3D11Device a requested =
      (.ok requested,
       { a with
          m_numD3dDeviceCreationCalls := a.m_numD3dDeviceCreationCalls + 1,
          m_retrievableHarwareAcceleration := requested }) := by
  rcases hreq with h | h
  · subst h
    simp [CanvasDeviceManager.MakeD3D11Device,
      TestDeviceResourceCreationAdapter.TryCreateD3DDevice, hhw rfl]
  · subst h
    simp [CanvasDeviceManager.MakeD3D11Device,
      TestDeviceResourceCreationAdapter.TryCreateD3DDevice]

/-- What `Create` does once its arguments are accepted and the D3D device of
acceleration `actual` has been made. -/
theorem Create_of_MakeD3D11Device (debugLevel : CanvasDebugLevel)
    (requested actual : CanvasHardwareAcceleration) (t : CanvasDeviceTests)
    (a2 : TestDeviceResourceCreationAdapter)
    (hd : debugLevel.isValid = true) (hr : requested.isOption = true)
    (hm : CanvasDeviceManager.MakeD3D11Device
        (t.m_resourceCreationAdapter.CreateD2DFactory debugLevel) requested = (.ok actual, a2)) :
    CanvasDeviceManager.Create debugLevel requested t =
      (.ok t.objects.length,
       { m_resourceCreationAdapter := a2,
         m_deviceManager :=
           { m_resources := t.m_deviceManager.m_resources ++ [(.created t.natives, t.objects.length)] },
         objects := t.objects ++
           [{ m_debugLevel := debugLevel, m_hardwareAcceleration := actual,
              m_direct3DDevice := some (.created t.natives),
              m_d2dDevice := some (.created t.natives), referenced := true }],
         natives := t.natives + 1 }) := by
  simp [CanvasDeviceManager.Create, hd, hr, hm, CanvasDeviceManager.wrap]

theorem deref_length_append (t : CanvasDeviceTests) (c : CanvasDevice)
    (a : TestDeviceResourceCreationAdapter) (m : CanvasDeviceManager) (n : Nat)
    (h : c.referenced = true) :
    CanvasDeviceTests.deref
      { m_resourceCreationAdapter := a, m_deviceManager := m,
        objects := t.objects ++ [c], natives := n } t.objects.length = some c := by
  simp [CanvasDeviceTests.deref, h]

/-- C3: for every valid debug level and every state of the fixture, `Create`
with `Auto` returns a device; the device reports `On` when the adapter's
hardware path is enabled at the time of the call and `Off` when it is not, and
that is also the kind of D3D device the adapter made.  Nothing else of the
state enters, in particular no earlier `Create`. -/
theorem Create_Auto_hardware_or_fallback (debugLevel : CanvasDebugLevel)
    (t : CanvasDeviceTests) (old : CanvasHardwareAcceleration)
    (hd : debugLevel.isValid = true) :
    ∃ device,
      (CanvasDeviceManager.Create debugLevel .Auto t).1 = .ok device ∧
      CanvasDevice.get_HardwareAcceleration device (some old)
          (CanvasDeviceManager.Create debugLevel .Auto t).2
        = some (S_OK, some (if t.m_resourceCreationAdapter.m_allowHardware then .On else .Off)) ∧
      (CanvasDeviceManager.Create debugLevel .Auto t).2.m_resourceCreationAdapter.m_retrievableHarwareAcceleration
        = (if t.m_resourceCreationAdapter.m_allowHardware then .On else .Off) ∧
      (CanvasDeviceManager.Create debugLevel .Auto t).2.m_resourceCreationAdapter.m_numD3dDeviceCreationCalls
        = t.m_resourceCreationAdapter.m_numD3dDeviceCreationCalls + 1 := by
  have hc := Create_of_MakeD3D11Device debugLevel .Auto _ t _ hd rfl
    (MakeD3D11Device_Auto (t.m_resourceCreationAdapter.CreateD2DFactory debugLevel))
  refine ⟨t.objects.length, ?_, ?_, ?_, ?_⟩
  · rw [hc]
  · rw [hc]
    unfold CanvasDevice.get_HardwareAcceleration
    rw [deref_length_append t _ _ _ _ rfl]
    simp [TestDeviceResourceCreationAdapter.CreateD2DFactory]
  · rw [hc]
    simp [TestDeviceResourceCreationAdapter.CreateD2DFactory]
  · rw [hc]
    simp [TestDeviceResourceCreationAdapter.CreateD2DFactory]

/-- C3 at a concrete input, the course of `CanvasDevice_HwSwFallback`: after a
first `Create` and with the hardware path then disabled, `Create` with `Auto`
yields a device that reports `Off`. -/
theorem Create_Auto_hardware_or_fallback_witness :
    CanvasDebugLevel.None.isValid = true ∧
    ∃ device,
      (CanvasDeviceManager.Create .None .Auto
        (runDeviceCalls [.create .None .Auto, .setHardwareEnabled false]
          CanvasDeviceTests.Reset)).1 = .ok device ∧
      CanvasDevice.get_HardwareAcceleration device (some .Unknown)
          (CanvasDeviceManager.Create .None .Auto
            (runDeviceCalls [.create .None .Auto, .setHardwareEnabled false]
              CanvasDeviceTests.Reset)).2
        = some (S_OK, some .Off) ∧
      (CanvasDeviceManager.Create .None .Auto
        (runDeviceCalls [.create .None .Auto, .setHardwareEnabled false]
          CanvasDeviceTests.Reset)).2.m_resourceCreationAdapter.m_retrievableHarwareAcceleration
        = .Off ∧
      (CanvasDeviceManager.Create .None .Auto
        (runDeviceCalls [.create .None .Auto, .setHardwareEnabled false]
          CanvasDeviceTests.Reset)).2.m_resourceCreationAdapter.m_numD3dDeviceCreationCalls
        = 1 + 1 :=
  ⟨by decide,
   Create_Auto_hardware_or_fallback .None
     (runDeviceCalls [.create .None .Auto, .setHardwareEnabled false] CanvasDeviceTests.Reset)
     .Unknown (by decide)⟩

/-- C5: `Create` refuses with `E_INVALIDARG` (`InvalidArgException`), making no
device and changing nothing, every debug level that is none of `None`, `Error`,
`Warning`, `Information`, every hardware acceleration that is none of `Auto`,
`On`, `Off` (so `Unknown` and `0x5678`), and a null Direct3D device.  With a
valid debug level it returns a live device for every acceleration option the
adapter can serve (hardware being needed for `On` only) and for every non-null
Direct3D device. -/
theorem Create_rejects_invalid_arguments (t : CanvasDeviceTests) :
    (∀ raw hardwareAcceleration,
      CanvasDeviceManager.Create (.other raw) hardwareAcceleration t = (.error E_INVALIDARG, t)) ∧
    (∀ debugLevel hardwareAcceleration, hardwareAcceleration.isOption = false →
      CanvasDeviceManager.Create debugLevel hardwareAcceleration t = (.error E_INVALIDARG, t)) ∧
    (∀ debugLevel, CanvasDeviceManager.Create debugLevel .Unknown t = (.error E_INVALIDARG, t)) ∧
    (∀ debugLevel,
      CanvasDeviceManager.Create debugLevel (.other 0x5678) t = (.error E_INVALIDARG, t)) ∧
    (∀ debugLevel,
      CanvasDeviceManager.Create_Direct3DDevice debugLevel none t = (.error E_INVALIDARG, t)) ∧
    (∀ raw direct3DDevice,
      CanvasDeviceManager.Create_Direct3DDevice (.other raw) direct3DDevice t
        = (.error E_INVALIDARG, t)) ∧
    (∀ debugLevel hardwareAcceleration,
      debugLevel.isValid = true → hardwareAcceleration.isOption = true →
      (hardwareAcceleration = .On → t.m_resourceCreationAdapter.m_allowHardware = true) →
      ∃ device,
        (CanvasDeviceManager.Create debugLevel hardwareAcceleration t).1 = .ok device ∧
        ((CanvasDeviceManager.Create debugLevel hardwareAcceleration t).2.deref device).isSome
          = true) ∧
    (∀ debugLevel direct3DDevice, debugLevel.isValid = true →
      ∃ device,
        (CanvasDeviceManager.Create_Direct3DDevice debugLevel (some direct3DDevice) t).1
          = .ok device ∧
        ((CanvasDeviceManager.Create_Direct3DDevice debugLevel
            (some direct3DDevice) t).2.deref device).isSome = true) := by
  have hopt : ∀ debugLevel hardwareAcceleration, hardwareAcceleration.isOption = false →
      CanvasDeviceManager.Create debugLevel hardwareAcceleration t = (.error E_INVALIDARG, t) := by
    intro debugLevel hardwareAcceleration h
    unfold CanvasDeviceManager.Create
    by_cases hd : debugLevel.isValid = false
    · rw [if_pos hd]
    · rw [if_neg hd, if_pos h]
  refine ⟨?_, hopt, fun d => hopt d _ rfl, fun d => hopt d _ rfl, ?_, ?_, ?_, ?_⟩
  · intro raw hardwareAcceleration
    simp [CanvasDeviceManager.Create, CanvasDebugLevel.isValid]
  · intro debugLevel
    rfl
  · intro raw direct3DDevice
    cases direct3DDevice <;>
      simp [CanvasDeviceManager.Create_Direct3DDevice, CanvasDebugLevel.isValid]
  · intro debugLevel hardwareAcceleration hd ho hhw
    have hm : ∃ actual a2, CanvasDeviceManager.MakeD3D11Device
        (t.m_resourceCreationAdapter.CreateD2DFactory debugLevel) hardwareAcceleration
          = (.ok actual, a2) := by
      cases hardwareAcceleration with
      | Auto => exact ⟨_, _, MakeD3D11Device_Auto _⟩
      | On => exact ⟨_, _, MakeD3D11Device_explicit _ .On (Or.inl rfl) (fun _ => hhw rfl)⟩
      | Off => exact ⟨_, _, MakeD3D11Device_explicit _ .Off (Or.inr rfl) (fun h => by cases h)⟩
      | Unknown => simp [CanvasHardwareAcceleration.isOption] at ho
      | other raw => simp [CanvasHardwareAcceleration.isOption] at ho
    obtain ⟨actual, a2, hm⟩ := hm
    have hc := Create_of_MakeD3D11Device debugLevel hardwareAcceleration actual t a2 hd ho hm
    refine ⟨t.objects.length, by rw [hc], ?_⟩
    rw [hc, deref_length_append t _ _ _ _ rfl]
    rfl
  · intro debugLevel direct3DDevice hd
    refine ⟨t.objects.length, ?_, ?_⟩
    · simp [CanvasDeviceManager.Create_Direct3DDevice, hd, CanvasDeviceManager.wrap]
    · simp [CanvasDeviceManager.Create_Direct3DDevice, hd, CanvasDeviceManager.wrap,
        CanvasDeviceTests.deref]

/-- C5 at a concrete input: on the fresh fixture, `Create` with debug level
`Warning` and acceleration `On` returns a live device. -/
theorem Create_rejects_invalid_arguments_witness :
    CanvasDebugLevel.Warning.isValid = true ∧
    CanvasHardwareAcceleration.On.isOption = true ∧
    ∃ device,
      (CanvasDeviceManager.Create .Warning .On CanvasDeviceTests.Reset).1 = .ok device ∧
      ((CanvasDeviceManager.Create .Warning .On CanvasDeviceTests.Reset).2.deref device).isSome
        = true :=
  ⟨by decide, by decide,
   (Create_rejects_invalid_arguments CanvasDeviceTests.Reset).2.2.2.2.2.2.1 .Warning .On
     (by decide) (by decide) (fun _ => by decide)⟩

/-- C6: for every valid debug level and every explicit request `On` or `Off`
that the adapter can serve (hardware being needed for `On`), `Create` makes
exactly one D2D factory, with that debug level, and returns a device whose
`get_HardwareAcceleration` succeeds and yields exactly the request. -/
theorem Create_honours_requested_options (debugLevel : CanvasDebugLevel)
    (hardwareAcceleration : CanvasHardwareAcceleration) (t : CanvasDeviceTests)
    (old : CanvasHardwareAcceleration)
    (hd : debugLevel.isValid = true)
    (hreq : hardwareAcceleration = .On ∨ hardwareAcceleration = .Off)
    (hhw : hardwareAcceleration = .On → t.m_resourceCreationAdapter.m_allowHardware = true) :
    ∃ device,
      (CanvasDeviceManager.Create debugLevel hardwareAcceleration t).1 = .ok device ∧
      (CanvasDeviceManager.Create debugLevel
          hardwareAcceleration t).2.m_resourceCreationAdapter.m_numD2DFactoryCreationCalls
        = t.m_resourceCreationAdapter.m_numD2DFactoryCreationCalls + 1 ∧
      (CanvasDeviceManager.Create debugLevel
          hardwareAcceleration t).2.m_resourceCreationAdapter.m_debugLevel = debugLevel ∧
      CanvasDevice.get_HardwareAcceleration device (some old)
          (CanvasDeviceManager.Create debugLevel hardwareAcceleration t).2
        = some (S_OK, some hardwareAcceleration) := by
  have ho : hardwareAcceleration.isOption = true := by
    rcases hreq with h | h <;> subst h <;> rfl
  have hc := Create_of_MakeD3D11Device debugLevel hardwareAcceleration _ t _ hd ho
    (MakeD3D11Device_explicit (t.m_resourceCreationAdapter.CreateD2DFactory debugLevel)
      hardwareAcceleration hreq hhw)
  refine ⟨t.objects.length, ?_, ?_, ?_, ?_⟩
  · rw [hc]
  · rw [hc]
    simp [TestDeviceResourceCreationAdapter.CreateD2DFactory]
  · rw [hc]
    simp [TestDeviceResourceCreationAdapter.CreateD2DFactory]
  · rw [hc]
    unfold CanvasDevice.get_HardwareAcceleration
    rw [deref_length_append t _ _ _ _ rfl]

/-- C6 at a concrete input, as in `CanvasDevice_HardwareAcceleration`: on the
fresh fixture `Create(Information, Off)` makes the first D2D factory, with
debug level `Information`, and the device reports `Off`. -/
theorem Create_honours_requested_options_witness :
    CanvasDebugLevel.Information.isValid = true ∧
    ∃ device,
      (CanvasDeviceManager.Create .Information .Off CanvasDeviceTests.Reset).1 = .ok device ∧
      (CanvasDeviceManager.Create .Information .Off
          CanvasDeviceTests.Reset).2.m_resourceCreationAdapter.m_numD2DFactoryCreationCalls
        = 0 + 1 ∧
      (CanvasDeviceManager.Create .Information .Off
          CanvasDeviceTests.Reset).2.m_resourceCreationAdapter.m_debugLevel = .Information ∧
      CanvasDevice.get_HardwareAcceleration device (some .Unknown)
          (CanvasDeviceManager.Create .Information .Off CanvasDeviceTests.Reset).2
        = some (S_OK, some .Off) :=
  ⟨by decide,
   Create_honours_requested_options .Information .Off CanvasDeviceTests.Reset .Unknown
     (by decide) (Or.inr rfl) (fun h => by cases h)⟩

/-- C8: `Create` on a given Direct3D device, with a valid debug level, makes
exactly one D2D factory and no D3D device; `GetOrCreate` on a Direct2D device
the manager does not know makes neither; and the device either returns reports
`Unknown` hardware acceleration. -/
theorem wrapping_creates_nothing_unasked (t : CanvasDeviceTests)
    (old : CanvasHardwareAcceleration) :
    (∀ debugLevel direct3DDevice, debugLevel.isValid = true →
      ∃ device,
        (CanvasDeviceManager.Create_Direct3DDevice debugLevel (some direct3DDevice) t).1
          = .ok device ∧
        (CanvasDeviceManager.Create_Direct3DDevice debugLevel (some direct3DDevice)
            t).2.m_resourceCreationAdapter.m_numD2DFactoryCreationCalls
          = t.m_resourceCreationAdapter.m_numD2DFactoryCreationCalls + 1 ∧
        (CanvasDeviceManager.Create_Direct3DDevice debugLevel (some direct3DDevice)
            t).2.m_resourceCreationAdapter.m_numD3dDeviceCreationCalls
          = t.m_resourceCreationAdapter.m_numD3dDeviceCreationCalls ∧
        CanvasDevice.get_HardwareAcceleration device (some old)
            (CanvasDeviceManager.Create_Direct3DDevice debugLevel (some direct3DDevice) t).2
          = some (S_OK, some .Unknown)) ∧
    (∀ d2dDevice, (∀ entry ∈ t.m_deviceManager.m_resources, entry.1 ≠ d2dDevice) →
      ∃ device,
        (CanvasDeviceManager.GetOrCreate (some d2dDevice) t).1 = .ok device ∧
        (CanvasDeviceManager.GetOrCreate (some d2dDevice) t).2.m_resourceCreationAdapter
          = t.m_resourceCreationAdapter ∧
        CanvasDevice.get_HardwareAcceleration device (some old)
            (CanvasDeviceManager.GetOrCreate (some d2dDevice) t).2
          = some (S_OK, some .Unknown)) := by
  constructor
  · intro debugLevel direct3DDevice hd
    refine ⟨t.objects.length, ?_, ?_, ?_, ?_⟩ <;>
      simp [CanvasDeviceManager.Create_Direct3DDevice, hd, CanvasDeviceManager.wrap,
        TestDeviceResourceCreationAdapter.CreateD2DFactory,
        CanvasDevice.get_HardwareAcceleration, CanvasDeviceTests.deref]
  · intro d2dDevice hnew
    have hfind : t.m_deviceManager.m_resources.find? (fun entry => entry.1 = d2dDevice)
        = none := by
      rw [List.find?_eq_none]
      intro entry he
      simpa using hnew entry he
    refine ⟨t.objects.length, ?_, ?_, ?_⟩ <;>
      simp [CanvasDeviceManager.GetOrCreate, hfind, CanvasDeviceManager.wrap,
        CanvasDevice.get_HardwareAcceleration, CanvasDeviceTests.deref]

/-- C8 at concrete inputs, as in `CanvasDevice_Create_With_Specific_Direct3DDevice`
and `CanvasDevice_Create_From_D2DDevice` on the fresh fixture. -/
theorem wrapping_creates_nothing_unasked_witness :
    (CanvasDebugLevel.None.isValid = true ∧
      ∃ device,
        (CanvasDeviceManager.Create_Direct3DDevice .None (some (.external 0))
          CanvasDeviceTests.Reset).1 = .ok device ∧
        (CanvasDeviceManager.Create_Direct3DDevice .None (some (.external 0))
            CanvasDeviceTests.Reset).2.m_resourceCreationAdapter.m_numD2DFactoryCreationCalls
          = 0 + 1 ∧
        (CanvasDeviceManager.Create_Direct3DDevice .None (some (.external 0))
            CanvasDeviceTests.Reset).2.m_resourceCreationAdapter.m_numD3dDeviceCreationCalls
          = 0 ∧
        CanvasDevice.get_HardwareAcceleration device (some .Auto)
            (CanvasDeviceManager.Create_Direct3DDevice .None (some (.external 0))
              CanvasDeviceTests.Reset).2
          = some (S_OK, some .Unknown)) ∧
    (∃ device,
        (CanvasDeviceManager.GetOrCreate (some (.external 0)) CanvasDeviceTests.Reset).1
          = .ok device ∧
        (CanvasDeviceManager.GetOrCreate (some (.external 0))
            CanvasDeviceTests.Reset).2.m_resourceCreationAdapter
          = CanvasDeviceTests.Reset.m_resourceCreationAdapter ∧
        CanvasDevice.get_HardwareAcceleration device (some .Auto)
            (CanvasDeviceManager.GetOrCreate (some (.external 0)) CanvasDeviceTests.Reset).2
          = some (S_OK, some .Unknown)) :=
  ⟨⟨by decide,
    (wrapping_creates_nothing_unasked CanvasDeviceTests.Reset .Auto).1 .None (.external 0)
      (by decide)⟩,
   (wrapping_creates_nothing_unasked CanvasDeviceTests.Reset .Auto).2 (.external 0)
     (fun entry he => by simp [CanvasDeviceTests.Reset] at he)⟩

theorem deref_eq_some (t : CanvasDeviceTests) (device : ICanvasDevice) (c : CanvasDevice)
    (h : t.deref device = some c) : t.objects[device]? = some c ∧ c.referenced = true := by
  unfold CanvasDeviceTests.deref at h
  cases ho : t.objects[device]? with
  | none => rw [ho] at h; simp at h
  | some c0 =>
    rw [ho] at h
    cases hr : c0.referenced with
    | false => simp [hr] at h
    | true =>
      simp [hr] at h
      subst h
      exact ⟨rfl, hr⟩

theorem deref_set (t : CanvasDeviceTests) (device : ICanvasDevice) (c c' : CanvasDevice)
    (m : CanvasDeviceManager) (h : t.deref device = some c) (hr : c'.referenced = true) :
    CanvasDeviceTests.deref { t with objects := t.objects.set device c', m_deviceManager := m }
      device = some c' := by
  obtain ⟨ho, _⟩ := deref_eq_some t device c h
  have hlt : device < t.objects.length := by
    rcases Nat.lt_or_ge device t.objects.length with hl | hl
    · exact hl
    · rw [List.getElem?_eq_none hl] at ho
      cases ho
  simp [CanvasDeviceTests.deref, hlt, hr]

/-- C7: `Close()` on a device someone references returns `S_OK`; afterwards
`get_Direct3DDevice` returns `RO_E_CLOSED` and leaves null in its out-pointer,
whatever the pointer held before, and `get_HardwareAcceleration` returns
`RO_E_CLOSED`, writing nothing. -/
theorem closed_device_rejects_reads (device : ICanvasDevice) (t : CanvasDeviceTests)
    (c : CanvasDevice) (hlive : t.deref device = some c) :
    ∃ t', CanvasDevice.Close device t = some (S_OK, t') ∧
      (∀ old, CanvasDevice.get_Direct3DDevice device (some old) t'
        = some (RO_E_CLOSED, some none)) ∧
      (∀ old, CanvasDevice.get_HardwareAcceleration device (some old) t'
        = some (RO_E_CLOSED, some old)) := by
  obtain ⟨_, hr⟩ := deref_eq_some t device c hlive
  have hd := deref_set t device c
    { c with m_direct3DDevice := none, m_d2dDevice := none }
    { m_resources := t.m_deviceManager.m_resources.filter (fun entry => entry.2 ≠ device) }
    hlive hr
  refine ⟨{ t with
      objects := t.objects.set device { c with m_direct3DDevice := none, m_d2dDevice := none },
      m_deviceManager :=
        { m_resources :=
            t.m_deviceManager.m_resources.filter (fun entry => entry.2 ≠ device) } },
    by simp only [CanvasDevice.Close, hlive], ?_, ?_⟩
  · intro old
    unfold CanvasDevice.get_Direct3DDevice
    rw [hd]
  · intro old
    unfold CanvasDevice.get_HardwareAcceleration
    rw [hd]

/-- C7 at a concrete input, as in `CanvasDevice_Closed`: the device that
`Create(None, On)` returns on the fresh fixture, closed, answers
`RO_E_CLOSED` and nulls an out-pointer that held a Direct3D device. -/
theorem closed_device_rejects_reads_witness :
    ∃ t', CanvasDevice.Close 0
        (CanvasDeviceManager.Create .None .On CanvasDeviceTests.Reset).2 = some (S_OK, t') ∧
      (∀ old, CanvasDevice.get_Direct3DDevice 0 (some old) t'
        = some (RO_E_CLOSED, some none)) ∧
      (∀ old, CanvasDevice.get_HardwareAcceleration 0 (some old) t'
        = some (RO_E_CLOSED, some old)) :=
  closed_device_rejects_reads 0 (CanvasDeviceManager.Create .None .On CanvasDeviceTests.Reset).2
    { m_debugLevel := .None, m_hardwareAcceleration := .On,
      m_direct3DDevice := some (.created 0), m_d2dDevice := some (.created 0),
      referenced := true }
    (by decide)

theorem CacheConsistent_Reset : CacheConsistent CanvasDeviceTests.Reset := by
  refine ⟨?_, ?_, ?_⟩ <;> simp [CanvasDeviceTests.Reset]

theorem CacheConsistent_wrap (t : CanvasDeviceTests) (c : CanvasDevice) (d : ID2D1Device)
    (h : CacheConsistent t) (hc : c.m_d2dDevice = some d)
    (hnew : ∀ entry ∈ t.m_deviceManager.m_resources, entry.1 ≠ d)
    (hmade : ∀ n, d = .created n → n < t.natives) :
    CacheConsistent (CanvasDeviceManager.wrap c d t).2 := by
  obtain ⟨h1, h2, h3⟩ := h
  refine ⟨?_, ?_, ?_⟩
  · intro device c' d' hget hr hd
    simp only [CanvasDeviceManager.wrap] at hget ⊢
    rcases Nat.lt_trichotomy device t.objects.length with hlt | heq | hgt
    · rw [List.getElem?_append_left hlt] at hget
      exact List.mem_append_left _ (h1 device c' d' hget hr hd)
    · subst heq
      simp only [List.getElem?_concat_length, Option.some.injEq] at hget
      subst hget
      rw [hc] at hd
      cases hd
      simp
    · have hlen : (t.objects ++ [c]).length ≤ device := by
        simp only [List.length_append, List.length_singleton]
        omega
      rw [List.getElem?_eq_none hlen] at hget
      cases hget
  · intro e1 he1 e2 he2 heq
    simp only [CanvasDeviceManager.wrap, List.mem_append, List.mem_singleton] at he1 he2
    rcases he1 with he1 | he1 <;> rcases he2 with he2 | he2
    · exact h2 e1 he1 e2 he2 heq
    · subst he2
      exact absurd heq (hnew e1 he1)
    · subst he1
      exact absurd heq.symm (hnew e2 he2)
    · subst he1
      subst he2
      rfl
  · intro entry he n hn
    simp only [CanvasDeviceManager.wrap, List.mem_append, List.mem_singleton] at he ⊢
    rcases he with he | he
    · exact h3 entry he n hn
    · subst he
      exact hmade n hn

theorem CacheConsistent_forget (t : CanvasDeviceTests) (device : ICanvasDevice)
    (c : CanvasDevice) (h : CacheConsistent t)
    (hgone : c.referenced = false ∨ c.m_d2dDevice = none) :
    CacheConsistent
      { t with
        objects := t.objects.set device c,
        m_deviceManager :=
          { m_resources :=
              t.m_deviceManager.m_resources.filter (fun entry => entry.2 ≠ device) } } := by
  obtain ⟨h1, h2, h3⟩ := h
  refine ⟨?_, ?_, ?_⟩
  · intro device' c' d' hget hr hd
    simp only at hget ⊢
    by_cases hdev : device = device'
    · subst hdev
      by_cases hlt : device < t.objects.length
      · rw [List.getElem?_set_self hlt] at hget
        simp only [Option.some.injEq] at hget
        subst hget
        rcases hgone with hg | hg
        · rw [hg] at hr
          cases hr
        · rw [hg] at hd
          cases hd
      · have hlen : (t.objects.set device c).length ≤ device := by
          simp only [List.length_set]
          exact Nat.le_of_not_lt hlt
        rw [List.getElem?_eq_none hlen] at hget
        cases hget
    · rw [List.getElem?_set_ne hdev] at hget
      have hmem := h1 device' c' d' hget hr hd
      simp only [List.mem_filter, decide_eq_true_eq]
      exact ⟨hmem, fun hcontra => hdev hcontra.symm⟩
  · intro e1 he1 e2 he2 heq
    exact h2 e1 (List.mem_of_mem_filter he1) e2 (List.mem_of_mem_filter he2) heq
  · intro entry he n hn
    exact h3 entry (List.mem_of_mem_filter he) n hn

theorem CacheConsistent_Create (debugLevel : CanvasDebugLevel)
    (hardwareAcceleration : CanvasHardwareAcceleration) (t : CanvasDeviceTests)
    (h : CacheConsistent t) :
    CacheConsistent (CanvasDeviceManager.Create debugLevel hardwareAcceleration t).2 := by
  unfold CanvasDeviceManager.Create
  split_ifs
  · exact h
  · exact h
  · dsimp only
    split
    · exact h
    · rename_i actual a2 _
      apply CacheConsistent_wrap
      · exact ⟨h.1, h.2.1, fun entry he n hn => Nat.lt_succ_of_lt (h.2.2 entry he n hn)⟩
      · rfl
      · intro entry he heq
        exact Nat.lt_irrefl _ (h.2.2 entry he t.natives heq)
      · intro n hn
        cases hn
        exact Nat.lt_succ_self _

theorem CacheConsistent_Create_Direct3DDevice (debugLevel : CanvasDebugLevel)
    (direct3DDevice : Option IDirect3DDevice) (t : CanvasDeviceTests)
    (h : CacheConsistent t) :
    CacheConsistent
      (CanvasDeviceManager.Create_Direct3DDevice debugLevel direct3DDevice t).2 := by
  unfold CanvasDeviceManager.Create_Direct3DDevice
  cases direct3DDevice with
  | none => exact h
  | some device =>
    dsimp only
    split_ifs
    · exact h
    · apply CacheConsistent_wrap
      · exact ⟨h.1, h.2.1, fun entry he n hn => Nat.lt_succ_of_lt (h.2.2 entry he n hn)⟩
      · rfl
      · intro entry he heq
        exact Nat.lt_irrefl _ (h.2.2 entry he t.natives heq)
      · intro n hn
        cases hn
        exact Nat.lt_succ_self _

theorem CacheConsistent_GetOrCreate (d2dDevice : ID2D1Device) (t : CanvasDeviceTests)
    (h : CacheConsistent t) (hmade : ∀ n, d2dDevice = .created n → n < t.natives) :
    CacheConsistent (CanvasDeviceManager.GetOrCreate (some d2dDevice) t).2 := by
  unfold CanvasDeviceManager.GetOrCreate
  dsimp only
  cases hf : t.m_deviceManager.m_resources.find? (fun entry => entry.1 = d2dDevice) with
  | some entry => exact h
  | none =>
    dsimp only
    apply CacheConsistent_wrap _ _ _ h rfl _ hmade
    intro entry he
    rw [List.find?_eq_none] at hf
    simpa using hf entry he

theorem CacheConsistent_run (call : DeviceCall) (t : CanvasDeviceTests)
    (h : CacheConsistent t) : CacheConsistent (call.run t) := by
  cases call with
  | create debugLevel hardwareAcceleration =>
    exact CacheConsistent_Create debugLevel hardwareAcceleration t h
  | createOnDirect3DDevice debugLevel direct3DDevice =>
    exact CacheConsistent_Create_Direct3DDevice debugLevel direct3DDevice t h
  | getOrCreate d2dDevice =>
    cases d2dDevice with
    | none => exact h
    | some d =>
      cases d with
      | created n =>
        simp only [DeviceCall.run]
        split_ifs with hn
        · exact CacheConsistent_GetOrCreate _ t h (fun m hm => by cases hm; exact hn)
        · exact h
      | external n =>
        exact CacheConsistent_GetOrCreate _ t h (fun m hm => by cases hm)
  | release device =>
    simp only [DeviceCall.run, CanvasDeviceTests.Release]
    cases hd : t.deref device with
    | none => exact h
    | some c => exact CacheConsistent_forget t device _ h (Or.inl rfl)
  | close device =>
    simp only [DeviceCall.run, CanvasDevice.Close]
    cases hd : t.deref device with
    | none => exact h
    | some c => exact CacheConsistent_forget t device _ h (Or.inr rfl)
  | setHardwareEnabled enable => exact h

theorem CacheConsistent_runDeviceCalls (calls : List DeviceCall) (t : CanvasDeviceTests)
    (h : CacheConsistent t) : CacheConsistent (runDeviceCalls calls t) := by
  induction calls generalizing t with
  | nil => exact h
  | cons call rest ih =>
    have hstep : runDeviceCalls (call :: rest) t = runDeviceCalls rest (call.run t) := by
      simp [runDeviceCalls]
    rw [hstep]
    exact ih (call.run t) (CacheConsistent_run call t h)

theorem GetOrCreate_of_CacheConsistent (t : CanvasDeviceTests) (device : ICanvasDevice)
    (d2dDevice : ID2D1Device) (h : CacheConsistent t)
    (hd : CanvasDevice.GetD2DDevice device t = some (.ok d2dDevice)) :
    CanvasDeviceManager.GetOrCreate (some d2dDevice) t = (.ok device, t) := by
  unfold CanvasDevice.GetD2DDevice at hd
  cases hderef : t.deref device with
  | none => rw [hderef] at hd; cases hd
  | some c =>
    rw [hderef] at hd
    dsimp only at hd
    obtain ⟨hget, hr⟩ := deref_eq_some t device c hderef
    cases hres : c.m_d2dDevice with
    | none => rw [hres] at hd; simp at hd
    | some d =>
      rw [hres] at hd
      simp only [Option.some.injEq, Except.ok.injEq] at hd
      subst hd
      have hmem := h.1 device c d hget hr hres
      unfold CanvasDeviceManager.GetOrCreate
      dsimp only
      cases hf : t.m_deviceManager.m_resources.find? (fun entry => entry.1 = d) with
      | none =>
        rw [List.find?_eq_none] at hf
        have := hf (d, device) hmem
        simp at this
      | some entry =>
        dsimp only
        have hkey : entry.1 = d := by simpa using List.find?_some hf
        have hin : entry ∈ t.m_deviceManager.m_resources := List.mem_of_find?_eq_some hf
        have hsame : entry.2 = device := h.2.1 entry hin (d, device) hmem hkey
        rw [hsame]

/-- C2: in every state the fixture reaches from `Reset` by any calls of the two
`Create`s, `GetOrCreate`, `Close`, `SetHardwareEnabled` and any releases of
devices, a `CanvasDevice` that is still referenced and hands out its Direct2D
device through `GetD2DDevice()` is what `GetOrCreate` on that Direct2D device
returns: the same object, and the state is left as it was (no new wrapper). -/
theorem GetOrCreate_returns_same_instance (calls : List DeviceCall)
    (device : ICanvasDevice) (d2dDevice : ID2D1Device)
    (hd : CanvasDevice.GetD2DDevice device (runDeviceCalls calls CanvasDeviceTests.Reset)
      = some (.ok d2dDevice)) :
    CanvasDeviceManager.GetOrCreate (some d2dDevice)
        (runDeviceCalls calls CanvasDeviceTests.Reset)
      = (.ok device, runDeviceCalls calls CanvasDeviceTests.Reset) :=
  GetOrCreate_of_CacheConsistent _ device d2dDevice
    (CacheConsistent_runDeviceCalls calls _ CacheConsistent_Reset) hd

/-- C2 at a concrete input: after creations of all three kinds, the release of
the first device and a change of the hardware switch, the device that
`GetOrCreate` made around an outside Direct2D device (the third object) is
what `GetOrCreate` on that Direct2D device returns. -/
theorem GetOrCreate_returns_same_instance_witness :
    CanvasDevice.GetD2DDevice 2
        (runDeviceCalls
          [.create .None .Auto, .createOnDirect3DDevice .None (some (.external 0)),
           .getOrCreate (some (.external 7)), .release 0, .setHardwareEnabled false,
           .create .Error .Auto]
          CanvasDeviceTests.Reset)
      = some (.ok (.external 7)) ∧
    CanvasDeviceManager.GetOrCreate (some (.external 7))
        (runDeviceCalls
          [.create .None .Auto, .createOnDirect3DDevice .None (some (.external 0)),
           .getOrCreate (some (.external 7)), .release 0, .setHardwareEnabled false,
           .create .Error .Auto]
          CanvasDeviceTests.Reset)
      = (.ok 2,
         runDeviceCalls
          [.create .None .Auto, .createOnDirect3DDevice .None (some (.external 0)),
           .getOrCreate (some (.external 7)), .release 0, .setHardwareEnabled false,
           .create .Error .Auto]
          CanvasDeviceTests.Reset) :=
  ⟨rfl,
   GetOrCreate_returns_same_instance
     [.create .None .Auto, .createOnDirect3DDevice .None (some (.external 0)),
      .getOrCreate (some (.external 7)), .release 0, .setHardwareEnabled false,
      .create .Error .Auto]
     2 (.external 7) rfl⟩

/-! ### The unit tests, replayed on the model

The assertions of three test methods hold of the definitions above. -/

/-- The assertions of `CanvasDevice_Defaults_Roundtrip`. -/
theorem replay_CanvasDevice_Defaults_Roundtrip :
    (CanvasDeviceManager.Create .None .Auto CanvasDeviceTests.Reset).1 = .ok 0 ∧
    (CanvasDeviceManager.Create .None .Auto
      CanvasDeviceTests.Reset).2.m_resourceCreationAdapter
      = { m_numD2DFactoryCreationCalls := 1, m_debugLevel := .None,
          m_numD3dDeviceCreationCalls := 1, m_allowHardware := true,
          m_retrievableHarwareAcceleration := .On } ∧
    (CanvasDeviceManager.GetOrCreate (some (.created 0))
      (CanvasDeviceManager.Create .None .Auto CanvasDeviceTests.Reset).2).1 = .ok 0 := by
  refine ⟨rfl, by decide, rfl⟩

/-- The assertions of `CanvasDevice_HwSwFallback`: hardware, then software
while the hardware path is disabled, then hardware again; one D3D device is
counted per `Create`. -/
theorem replay_CanvasDevice_HwSwFallback :
    (runDeviceCalls [.create .None .Auto]
      CanvasDeviceTests.Reset).m_resourceCreationAdapter.m_retrievableHarwareAcceleration = .On ∧
    (runDeviceCalls [.create .None .Auto]
      CanvasDeviceTests.Reset).m_resourceCreationAdapter.m_numD3dDeviceCreationCalls = 1 ∧
    (runDeviceCalls [.create .None .Auto, .setHardwareEnabled false, .create .None .Auto]
      CanvasDeviceTests.Reset).m_resourceCreationAdapter.m_retrievableHarwareAcceleration = .Off ∧
    (runDeviceCalls [.create .None .Auto, .setHardwareEnabled false, .create .None .Auto]
      CanvasDeviceTests.Reset).m_resourceCreationAdapter.m_numD3dDeviceCreationCalls = 2 ∧
    CanvasDevice.get_HardwareAcceleration 1 (some .Unknown)
      (runDeviceCalls [.create .None .Auto, .setHardwareEnabled false, .create .None .Auto]
        CanvasDeviceTests.Reset) = some (S_OK, some .Off) ∧
    (runDeviceCalls
      [.create .None .Auto, .setHardwareEnabled false, .create .None .Auto,
       .setHardwareEnabled true, .create .None .Auto]
      CanvasDeviceTests.Reset).m_resourceCreationAdapter.m_retrievableHarwareAcceleration = .On ∧
    (runDeviceCalls
      [.create .None .Auto, .setHardwareEnabled false, .create .None .Auto,
       .setHardwareEnabled true, .create .None .Auto]
      CanvasDeviceTests.Reset).m_resourceCreationAdapter.m_numD3dDeviceCreationCalls = 3 ∧
    CanvasDevice.get_HardwareAcceleration 2 (some .Unknown)
      (runDeviceCalls
        [.create .None .Auto, .setHardwareEnabled false, .create .None .Auto,
         .setHardwareEnabled true, .create .None .Auto]
        CanvasDeviceTests.Reset) = some (S_OK, some .On) := by
  decide

/-- The assertions of `CanvasDeviceManager_Create_GetOrCreate_Returns_Same_Instance`:
the same object while it is referenced, a different one once it was released. -/
theorem replay_Create_GetOrCreate_Returns_Same_Instance :
    (CanvasDeviceManager.GetOrCreate (some (.created 0))
      (runDeviceCalls [.create .None .On] CanvasDeviceTests.Reset)).1 = .ok 0 ∧
    (CanvasDeviceManager.GetOrCreate (some (.created 0))
      (runDeviceCalls [.create .None .On, .release 0] CanvasDeviceTests.Reset)).1 = .ok 1 := by
  exact ⟨rfl, rfl⟩

/-! ## Theorems: layout, rendering and the life of the control -/

theorem ThrowIfFailed_ok (hr : HRESULT) (h : FAILED hr = false) : ThrowIfFailed hr = .ok () := by
  simp [ThrowIfFailed, h]

/-- C14: whatever the available size and whatever the state of the control,
once the `Image` element answers the interface query `MeasureOverride` asks it
to measure itself for exactly the available size, once; and when that request
is not refused it returns `S_OK` and writes the zero `Size` through
`returnValue`, changing nothing else. -/
theorem MeasureOverride_returns_zero_Size (hrAs hrMeasure : HRESULT) (availableSize : Size)
    (w : World) (hAs : FAILED hrAs = false) :
    (MeasureOverride hrAs hrMeasure availableSize w).2.2 =
      { w with xaml := { w.xaml with
          imageControlMeasured := w.xaml.imageControlMeasured ++ [availableSize] } } ∧
    (FAILED hrMeasure = false →
      (MeasureOverride hrAs hrMeasure availableSize w).1 = S_OK ∧
      (MeasureOverride hrAs hrMeasure availableSize w).2.1 = some { Width := 0, Height := 0 }) := by
  unfold MeasureOverride
  rw [ThrowIfFailed_ok hrAs hAs]
  dsimp only
  constructor
  · cases hm : ThrowIfFailed hrMeasure <;> rfl
  · intro hMeasure
    rw [ThrowIfFailed_ok hrMeasure hMeasure]
    exact ⟨rfl, rfl⟩

/-- C14 at a concrete input: offered 640.5 by 480, a new control has its
`Image` measure itself for 640.5 by 480 and answers 0 by 0. -/
theorem MeasureOverride_returns_zero_Size_witness :
    FAILED S_OK = false ∧
    (MeasureOverride S_OK S_OK { Width := Rat.divInt 1281 2, Height := 480 }
        World.initial).2.2.xaml.imageControlMeasured
      = [{ Width := Rat.divInt 1281 2, Height := 480 }] ∧
    (MeasureOverride S_OK S_OK { Width := Rat.divInt 1281 2, Height := 480 } World.initial).1
      = S_OK ∧
    (MeasureOverride S_OK S_OK { Width := Rat.divInt 1281 2, Height := 480 } World.initial).2.1
      = some { Width := 0, Height := 0 } :=
  ⟨by decide,
   congrArg (fun w' : World => w'.xaml.imageControlMeasured)
     (MeasureOverride_returns_zero_Size S_OK S_OK { Width := Rat.divInt 1281 2, Height := 480 }
       World.initial (by decide)).1,
   (MeasureOverride_returns_zero_Size S_OK S_OK { Width := Rat.divInt 1281 2, Height := 480 }
     World.initial (by decide)).2 (by decide)⟩

/-- C11 on the code: a new control is invalidated before it is loaded, which
registers its rendering callback; the compositor then invokes that callback.
With assertions compiled in, `OnRenderCallback` reaches `assert(m_isLoaded)`
in `EnsureSizeDependentResources` on a control that is not loaded and the
assertion fails; with assertions compiled out the actual size is read and an
image source made while the control is still not loaded. -/
theorem OnRenderCallback_reaches_assert_before_Loaded :
    (Invalidate S_OK World.initial).1 = S_OK ∧
    (Invalidate S_OK World.initial).2.control.m_isLoaded = false ∧
    (Invalidate S_OK World.initial).2.xaml.rendering
      = [(Invalidate S_OK World.initial).2.control.m_renderingEventToken] ∧
    runEvents false
        [.invalidate S_OK,
         .rendering S_OK
           { As_IFrameworkElement := S_OK, get_ActualWidth := (S_OK, 640),
             get_ActualHeight := (S_OK, 480), CreateCanvasImageSource := S_OK,
             As_IImageSource := S_OK, put_Source := S_OK }
           { CreateDrawingSession := (S_OK, 0), As_IClosable := S_OK, Close := S_OK } S_OK]
        World.initial
      = .error .assertion ∧
    ∃ w', runEvents true
        [.invalidate S_OK,
         .rendering S_OK
           { As_IFrameworkElement := S_OK, get_ActualWidth := (S_OK, 640),
             get_ActualHeight := (S_OK, 480), CreateCanvasImageSource := S_OK,
             As_IImageSource := S_OK, put_Source := S_OK }
           { CreateDrawingSession := (S_OK, 0), As_IClosable := S_OK, Close := S_OK } S_OK]
        World.initial
      = .ok w' ∧ w'.control.m_isLoaded = false ∧
        w'.control.m_canvasImageSource
          = some { id := 0, device := some 0, width := 640, height := 480 } := by
  refine ⟨by decide, by decide, by decide, rfl, _, rfl, rfl, rfl⟩

/-- What a call of `EnsureSizeDependentResources` that did not fault leaves
alone. -/
theorem EnsureSizeDependentResources_frame (ndebug : Bool) (p : LayoutAnswers) (w w' : World)
    (r : Except HRESULT Unit) (h : EnsureSizeDependentResources ndebug p w = .ok (r, w')) :
    w'.control.m_isLoaded = w.control.m_isLoaded ∧
    w'.control.m_drawNeeded = w.control.m_drawNeeded ∧
    w'.control.m_renderingEventToken = w.control.m_renderingEventToken ∧
    w'.control.m_drawEventList = w.control.m_drawEventList ∧
    w'.xaml.rendering = w.xaml.rendering ∧
    w'.xaml.nextRenderingToken = w.xaml.nextRenderingToken ∧
    w'.xaml.invocations = w.xaml.invocations := by
  unfold EnsureSizeDependentResources at h
  split at h
  · contradiction
  split at h
  · contradiction
  split at h
  · simp only [Except.ok.injEq, Prod.mk.injEq] at h
    obtain ⟨_, rfl⟩ := h
    simp
  split at h
  · simp only [Except.ok.injEq, Prod.mk.injEq] at h
    obtain ⟨_, rfl⟩ := h
    simp
  split at h
  · simp only [Except.ok.injEq, Prod.mk.injEq] at h
    obtain ⟨_, rfl⟩ := h
    simp
  dsimp only at h
  split at h
  · contradiction
  split at h
  · contradiction
  split at h
  · simp only [Except.ok.injEq, Prod.mk.injEq] at h
    obtain ⟨_, rfl⟩ := h
    simp
  · unfold CreateCanvasImageSource at h
    cases hc1 : ThrowIfFailed p.CreateCanvasImageSource with
    | error e =>
      rw [hc1] at h
      simp only [Except.ok.injEq, Prod.mk.injEq] at h
      obtain ⟨_, rfl⟩ := h
      simp
    | ok u =>
      rw [hc1] at h
      dsimp only at h
      split at h
      · simp only [Except.ok.injEq, Prod.mk.injEq] at h
        obtain ⟨_, rfl⟩ := h
        simp
      split at h
      · simp only [Except.ok.injEq, Prod.mk.injEq] at h
        obtain ⟨_, rfl⟩ := h
        simp
      · simp only [Except.ok.injEq, Prod.mk.injEq] at h
        obtain ⟨_, rfl⟩ := h
        simp

/-- What a call of `CallDrawHandlers` that did not fault did: nothing, because
no drawing session could be made, or it fired the `Drawing` delegates. -/
theorem CallDrawHandlers_ok_inv (d : DrawAnswers) (hrAdd : HRESULT) (w w' : World)
    (r : Except HRESULT Unit) (h : CallDrawHandlers d hrAdd w = .ok (r, w')) :
    (FAILED d.CreateDrawingSession.1 = true ∧ w' = w ∧ r = .error d.CreateDrawingSession.1) ∨
    (FAILED d.CreateDrawingSession.1 = false ∧
      w' = FireAll w.control.m_drawEventList.m_handlers .this
        (.drawEventArgs d.CreateDrawingSession.2) hrAdd w) := by
  unfold CallDrawHandlers at h
  split at h
  · contradiction
  cases hf : FAILED d.CreateDrawingSession.1 with
  | true =>
    simp only [ThrowIfFailed, hf, if_true, Except.ok.injEq, Prod.mk.injEq] at h
    exact Or.inl ⟨rfl, h.2.symm, h.1.symm⟩
  | false =>
    right
    refine ⟨rfl, ?_⟩
    rw [ThrowIfFailed_ok _ hf] at h
    dsimp only at h
    split at h
    · simp only [Except.ok.injEq, Prod.mk.injEq] at h
      exact h.2.symm
    split at h
    · simp only [Except.ok.injEq, Prod.mk.injEq] at h
      exact h.2.symm
    · simp only [Except.ok.injEq, Prod.mk.injEq] at h
      exact h.2.symm

theorem OnRenderCallback_isLoaded (ndebug : Bool) (hrRemove : HRESULT) (p : LayoutAnswers)
    (d : DrawAnswers) (hrAdd : HRESULT) (w w' : World) (hr : HRESULT)
    (h : OnRenderCallback ndebug hrRemove p d hrAdd w = .ok (hr, w')) :
    w'.control.m_isLoaded = w.control.m_isLoaded := by
  unfold OnRenderCallback at h
  have hclear : (ClearDrawNeeded hrRemove w).2.control.m_isLoaded = w.control.m_isLoaded := by
    unfold ClearDrawNeeded RemoveCompositionRenderingCallback
    cases ThrowIfFailed hrRemove <;> rfl
  split at h
  · rename_i e w1 hc
    simp only [Except.ok.injEq, Prod.mk.injEq] at h
    rw [← h.2, ← hclear, hc]
  · rename_i u w1 hc
    have hw1 : w1.control.m_isLoaded = w.control.m_isLoaded := by rw [← hclear, hc]
    split at h
    · contradiction
    · rename_i e w2 he
      simp only [Except.ok.injEq, Prod.mk.injEq] at h
      rw [← h.2, (EnsureSizeDependentResources_frame ndebug p w1 w2 _ he).1, hw1]
    · rename_i u2 w2 he
      have hw2 : w2.control.m_isLoaded = w.control.m_isLoaded := by
        rw [(EnsureSizeDependentResources_frame ndebug p w1 w2 _ he).1, hw1]
      split at h
      · contradiction
      · rename_i r w3 hd
        simp only [Except.ok.injEq, Prod.mk.injEq] at h
        rw [← h.2]
        rcases CallDrawHandlers_ok_inv d hrAdd w2 w3 r hd with ⟨_, h3, _⟩ | ⟨_, h3⟩
        · rw [h3, hw2]
        · rw [h3, (FireAll_frame _ _ _ hrAdd w2).2.2, hw2]

theorem ControlEvent_step_isLoaded (ndebug : Bool) (e : ControlEvent) (w w' : World)
    (h : e.step ndebug w = .ok w') (hl : w.control.m_isLoaded = true) :
    w'.control.m_isLoaded = true := by
  cases e with
  | invalidate hrAdd =>
    simp only [ControlEvent.step, Except.ok.injEq] at h
    rw [← h, Invalidate, (InvalidateImpl_frame hrAdd w).2.2, hl]
  | addDrawing value =>
    simp only [ControlEvent.step, Except.ok.injEq] at h
    rw [← h]
    exact hl
  | removeDrawing token =>
    simp only [ControlEvent.step, Except.ok.injEq] at h
    rw [← h]
    exact hl
  | addCreatingResources value hrAdd =>
    simp only [ControlEvent.step, Except.ok.injEq] at h
    rw [← h]
    exact (add_CreatingResources_after_Loaded value hrAdd w hl).2.1
  | removeCreatingResources token =>
    simp only [ControlEvent.step, Except.ok.injEq] at h
    rw [← h]
    exact hl
  | loaded hrAdd =>
    simp only [ControlEvent.step, Except.ok.injEq] at h
    rw [← h]
    exact (OnLoaded_frame hrAdd w).2.2
  | sizeChanged args hrAdd =>
    simp only [ControlEvent.step, Except.ok.injEq] at h
    rw [← h]
    unfold OnSizeChanged
    simp only [hl, Bool.not_true, Bool.false_eq_true, if_false]
    split
    · exact hl
    · split
      · exact hl
      · rw [(InvalidateImpl_frame hrAdd w).2.2, hl]
  | rendering hrRemove p d hrAdd =>
    simp only [ControlEvent.step] at h
    split at h
    · simp only [Except.ok.injEq] at h
      rw [← h, hl]
    · split at h
      · contradiction
      · rename_i r hr
        simp only [Except.ok.injEq] at h
        rw [← h, OnRenderCallback_isLoaded ndebug hrRemove p d hrAdd w r.2 r.1 hr, hl]
  | measure hrAs hrMeasure availableSize =>
    simp only [ControlEvent.step, Except.ok.injEq] at h
    rw [← h]
    unfold MeasureOverride
    cases ThrowIfFailed hrAs with
    | error e => exact hl
    | ok u =>
      dsimp only
      cases ThrowIfFailed hrMeasure <;> exact hl

theorem runEvents_isLoaded (ndebug : Bool) (events : List ControlEvent) (w w' : World)
    (h : runEvents ndebug events w = .ok w') (hl : w.control.m_isLoaded = true) :
    w'.control.m_isLoaded = true := by
  induction events generalizing w with
  | nil =>
    simp only [runEvents, Except.ok.injEq] at h
    rw [← h, hl]
  | cons e rest ih =>
    simp only [runEvents] at h
    split at h
    · contradiction
    · rename_i w1 he
      exact ih w1 h (ControlEvent_step_isLoaded ndebug e w w1 he hl)

/-- When the compositor accepts registrations and a draw that is pending has a
callback registered, a callback is registered after `InvalidateImpl`. -/
theorem InvalidateImpl_registered (hrAdd : HRESULT) (w : World)
    (hok : FAILED hrAdd = false)
    (hreg : w.control.m_drawNeeded = true → w.xaml.rendering ≠ []) :
    (InvalidateImpl hrAdd w).2.xaml.rendering ≠ [] := by
  cases hd : w.control.m_drawNeeded with
  | true =>
    rw [InvalidateImpl_of_drawNeeded hrAdd w hd]
    exact hreg hd
  | false =>
    rw [InvalidateImpl_of_not_drawNeeded hrAdd w hd hok]
    simp

theorem Invoke_registered (h : Handler) (sender args : Pointer) (hrAdd : HRESULT)
    (w : World) (hok : FAILED hrAdd = false)
    (hreg : w.control.m_drawNeeded = true → w.xaml.rendering ≠ []) :
    (h.Invoke sender args hrAdd w).2.control.m_drawNeeded = true →
      (h.Invoke sender args hrAdd w).2.xaml.rendering ≠ [] := by
  unfold Handler.Invoke
  cases h.callsInvalidate with
  | false => exact hreg
  | true =>
    intro _
    simp only [if_true]
    exact InvalidateImpl_registered hrAdd
      { w with xaml := { w.xaml with
          invocations := w.xaml.invocations ++
            [{ handler := h, sender := sender, args := args }] } } hok hreg

theorem FireAll_registered (handlers : List (EventRegistrationToken × Handler))
    (sender args : Pointer) (hrAdd : HRESULT) (w : World) (hok : FAILED hrAdd = false)
    (hreg : w.control.m_drawNeeded = true → w.xaml.rendering ≠ []) :
    (FireAll handlers sender args hrAdd w).control.m_drawNeeded = true →
      (FireAll handlers sender args hrAdd w).xaml.rendering ≠ [] := by
  induction handlers generalizing w with
  | nil => exact hreg
  | cons p rest ih =>
    have hstep : FireAll (p :: rest) sender args hrAdd w
        = FireAll rest sender args hrAdd (p.2.Invoke sender args hrAdd w).2 := by
      simp [FireAll]
    rw [hstep]
    exact ih _ (Invoke_registered p.2 sender args hrAdd w hok hreg)

/-- C13 as the code has it: after every successful `OnLoaded`, `m_isLoaded` is
true; and a redraw is pending, `m_drawNeeded` true and a rendering callback
registered, provided that the compositor accepts a registration made during
the call and that, before the call, a redraw that was pending had a rendering
callback registered.  And no event sets `m_isLoaded` back: along every sequence
of events it stays true once it is. -/
theorem OnLoaded_schedules_first_draw (hrAdd : HRESULT) (w : World) :
    ((OnLoaded hrAdd w).1 = S_OK → (OnLoaded hrAdd w).2.control.m_isLoaded = true) ∧
    ((OnLoaded hrAdd w).1 = S_OK → FAILED hrAdd = false →
      (w.control.m_drawNeeded = true → w.xaml.rendering ≠ []) →
      (OnLoaded hrAdd w).2.control.m_drawNeeded = true ∧
      (OnLoaded hrAdd w).2.xaml.rendering ≠ []) ∧
    (∀ (ndebug : Bool) (events : List ControlEvent) (w0 w1 : World),
      runEvents ndebug events w0 = .ok w1 → w0.control.m_isLoaded = true →
      w1.control.m_isLoaded = true) := by
  refine ⟨fun _ => (OnLoaded_frame hrAdd w).2.2, ?_,
    fun ndebug events w0 w1 h hl => runEvents_isLoaded ndebug events w0 w1 h hl⟩
  intro _ hok hreg
  unfold OnLoaded
  dsimp only
  have hfire := FireAll_registered w.control.m_createResourcesEventList.m_handlers
    .this .nullptr hrAdd { w with control := { w.control with m_isLoaded := true } } hok hreg
  exact ⟨InvalidateImpl_drawNeeded hrAdd _, InvalidateImpl_registered hrAdd _ hok hfire⟩

/-- C13 as stated fails: on a new control the compositor refuses the
registration of a first `Invalidate()`, which leaves `m_drawNeeded` set; the
`Loaded` that follows succeeds, yet no rendering callback is registered after
it. -/
theorem OnLoaded_after_refused_Invalidate_registers_nothing :
    (Invalidate E_FAIL World.initial).2.control.m_drawNeeded = true ∧
    (OnLoaded S_OK (Invalidate E_FAIL World.initial).2).1 = S_OK ∧
    (OnLoaded S_OK (Invalidate E_FAIL World.initial).2).2.control.m_isLoaded = true ∧
    (OnLoaded S_OK (Invalidate E_FAIL World.initial).2).2.control.m_drawNeeded = true ∧
    (OnLoaded S_OK (Invalidate E_FAIL World.initial).2).2.xaml.rendering = [] := by
  decide

/-- A registration refused during `OnLoaded` itself: a `CreatingResources`
delegate of a new control calls `Invalidate()`, the compositor refuses the
registration and the delegate carries on.  `OnLoaded` returns `S_OK` with
`m_drawNeeded` set and no rendering callback registered. -/
theorem OnLoaded_with_registration_refused_in_delegate :
    (OnLoaded E_FAIL
      (add_CreatingResources { id := 1, callsInvalidate := true, result := S_OK } S_OK
        World.initial).2.2).1 = S_OK ∧
    (OnLoaded E_FAIL
      (add_CreatingResources { id := 1, callsInvalidate := true, result := S_OK } S_OK
        World.initial).2.2).2.control.m_drawNeeded = true ∧
    (OnLoaded E_FAIL
      (add_CreatingResources { id := 1, callsInvalidate := true, result := S_OK } S_OK
        World.initial).2.2).2.xaml.rendering = [] := by
  decide

/-- C13 as the code has it, at concrete inputs: `Loaded` on a new control with a
`CreatingResources` delegate that calls `Invalidate()` succeeds, leaves the
control loaded, a draw needed and one rendering callback registered. -/
theorem OnLoaded_schedules_first_draw_witness :
    (OnLoaded S_OK
      (add_CreatingResources { id := 1, callsInvalidate := true, result := S_OK } S_OK
        World.initial).2.2).1 = S_OK ∧
    FAILED S_OK = false ∧
    (OnLoaded S_OK
      (add_CreatingResources { id := 1, callsInvalidate := true, result := S_OK } S_OK
        World.initial).2.2).2.control.m_isLoaded = true ∧
    ((OnLoaded S_OK
      (add_CreatingResources { id := 1, callsInvalidate := true, result := S_OK } S_OK
        World.initial).2.2).2.control.m_drawNeeded = true ∧
     (OnLoaded S_OK
      (add_CreatingResources { id := 1, callsInvalidate := true, result := S_OK } S_OK
        World.initial).2.2).2.xaml.rendering ≠ []) ∧
    (OnLoaded S_OK
      (add_CreatingResources { id := 1, callsInvalidate := true, result := S_OK } S_OK
        World.initial).2.2).2.xaml.rendering = [1] :=
  ⟨by decide, by decide,
   (OnLoaded_schedules_first_draw S_OK
      (add_CreatingResources { id := 1, callsInvalidate := true, result := S_OK } S_OK
        World.initial).2.2).1 (by decide),
   (OnLoaded_schedules_first_draw S_OK
      (add_CreatingResources { id := 1, callsInvalidate := true, result := S_OK } S_OK
        World.initial).2.2).2.1 (by decide) (by decide) (fun h => absurd h (by decide)),
   by decide⟩

theorem ThrowIfFailed_error (hr e : HRESULT) (h : ThrowIfFailed hr = .error e) :
    FAILED e = true ∧ e ≠ S_OK := by
  unfold ThrowIfFailed at h
  cases hf : FAILED hr with
  | false => simp [hf] at h
  | true =>
    simp only [hf, if_true, Except.error.injEq] at h
    subst h
    refine ⟨hf, ?_⟩
    intro h0
    rw [h0] at hf
    exact absurd hf (by decide)

/-- With its callback the only one registered and the compositor willing,
`ClearDrawNeeded` leaves no draw needed and no callback registered. -/
theorem ClearDrawNeeded_of_registered (hrRemove : HRESULT) (w : World)
    (hreg : w.xaml.rendering = [w.control.m_renderingEventToken])
    (hrem : FAILED hrRemove = false) :
    ClearDrawNeeded hrRemove w =
      (.ok (), { control := { w.control with m_drawNeeded := false },
                 xaml := { w.xaml with rendering := [] } }) := by
  unfold ClearDrawNeeded RemoveCompositionRenderingCallback
  rw [ThrowIfFailed_ok hrRemove hrem]
  simp [hreg]

/-- After `InvalidateImpl`, when the compositor is willing, a draw is pending
with exactly the control's callback registered, whether one was pending before
or none was. -/
theorem InvalidateImpl_pending (hrAdd : HRESULT) (w : World) (hok : FAILED hrAdd = false) :
    (w.control.m_drawNeeded = true ∧ w.xaml.rendering = [w.control.m_renderingEventToken] →
      (InvalidateImpl hrAdd w).2.control.m_drawNeeded = true ∧
      (InvalidateImpl hrAdd w).2.xaml.rendering
        = [(InvalidateImpl hrAdd w).2.control.m_renderingEventToken]) ∧
    (w.control.m_drawNeeded = false ∧ w.xaml.rendering = [] →
      (InvalidateImpl hrAdd w).2.control.m_drawNeeded = true ∧
      (InvalidateImpl hrAdd w).2.xaml.rendering
        = [(InvalidateImpl hrAdd w).2.control.m_renderingEventToken]) := by
  constructor
  · intro hp
    rw [InvalidateImpl_of_drawNeeded hrAdd w hp.1]
    exact hp
  · intro hi
    rw [InvalidateImpl_of_not_drawNeeded hrAdd w hi.1 hok]
    simp [hi.2]

/-- One delegate invocation and the pending draw: a pending draw stays as it
is; without one, the invocation leaves a pending draw exactly when the
delegate calls `Invalidate()`. -/
theorem Invoke_pending (h : Handler) (sender args : Pointer) (hrAdd : HRESULT) (w : World)
    (hok : FAILED hrAdd = false) :
    (w.control.m_drawNeeded = true ∧ w.xaml.rendering = [w.control.m_renderingEventToken] →
      (h.Invoke sender args hrAdd w).2.control.m_drawNeeded = true ∧
      (h.Invoke sender args hrAdd w).2.xaml.rendering
        = [(h.Invoke sender args hrAdd w).2.control.m_renderingEventToken]) ∧
    (w.control.m_drawNeeded = false ∧ w.xaml.rendering = [] →
      (h.callsInvalidate = true →
        (h.Invoke sender args hrAdd w).2.control.m_drawNeeded = true ∧
        (h.Invoke sender args hrAdd w).2.xaml.rendering
          = [(h.Invoke sender args hrAdd w).2.control.m_renderingEventToken]) ∧
      (h.callsInvalidate = false →
        (h.Invoke sender args hrAdd w).2.control.m_drawNeeded = false ∧
        (h.Invoke sender args hrAdd w).2.xaml.rendering = [])) := by
  unfold Handler.Invoke
  cases hc : h.callsInvalidate with
  | false =>
    simp only [Bool.false_eq_true, if_false]
    constructor
    · intro hp
      exact hp
    · intro hi
      constructor
      · intro hcontra
        cases hcontra
      · intro _
        exact hi
  | true =>
    simp only [if_true]
    constructor
    · intro hp
      exact (InvalidateImpl_pending hrAdd _ hok).1 hp
    · intro hi
      constructor
      · intro _
        exact (InvalidateImpl_pending hrAdd _ hok).2 hi
      · intro hcontra
        cases hcontra

theorem FireAll_of_pending (handlers : List (EventRegistrationToken × Handler))
    (sender args : Pointer) (hrAdd : HRESULT) (w : World) (hok : FAILED hrAdd = false)
    (hp : w.control.m_drawNeeded = true ∧ w.xaml.rendering = [w.control.m_renderingEventToken]) :
    (FireAll handlers sender args hrAdd w).control.m_drawNeeded = true ∧
    (FireAll handlers sender args hrAdd w).xaml.rendering
      = [(FireAll handlers sender args hrAdd w).control.m_renderingEventToken] := by
  induction handlers generalizing w with
  | nil => exact hp
  | cons q rest ih =>
    have hstep : FireAll (q :: rest) sender args hrAdd w
        = FireAll rest sender args hrAdd (q.2.Invoke sender args hrAdd w).2 := by
      simp [FireAll]
    rw [hstep]
    exact ih _ ((Invoke_pending q.2 sender args hrAdd w hok).1 hp)

/-- Firing delegates with no draw pending leaves a draw pending, with exactly
one callback registered, when one of them calls `Invalidate()`, and leaves
none pending and nothing registered when none does. -/
theorem FireAll_of_idle (handlers : List (EventRegistrationToken × Handler))
    (sender args : Pointer) (hrAdd : HRESULT) (w : World) (hok : FAILED hrAdd = false)
    (hi : w.control.m_drawNeeded = false ∧ w.xaml.rendering = []) :
    (handlers.any (fun q => q.2.callsInvalidate) = true →
      (FireAll handlers sender args hrAdd w).control.m_drawNeeded = true ∧
      (FireAll handlers sender args hrAdd w).xaml.rendering
        = [(FireAll handlers sender args hrAdd w).control.m_renderingEventToken]) ∧
    (handlers.any (fun q => q.2.callsInvalidate) = false →
      (FireAll handlers sender args hrAdd w).control.m_drawNeeded = false ∧
      (FireAll handlers sender args hrAdd w).xaml.rendering = []) := by
  induction handlers generalizing w with
  | nil =>
    refine ⟨fun h => ?_, fun _ => hi⟩
    simp at h
  | cons q rest ih =>
    have hstep : FireAll (q :: rest) sender args hrAdd w
        = FireAll rest sender args hrAdd (q.2.Invoke sender args hrAdd w).2 := by
      simp [FireAll]
    rw [hstep]
    obtain ⟨_, hidle⟩ := Invoke_pending q.2 sender args hrAdd w hok
    obtain ⟨hyes, hno⟩ := hidle hi
    cases hc : q.2.callsInvalidate with
    | true =>
      refine ⟨fun _ => FireAll_of_pending rest sender args hrAdd _ hok (hyes hc), fun h => ?_⟩
      simp [hc] at h
    | false =>
      obtain ⟨ih1, ih2⟩ := ih _ (hno hc)
      refine ⟨fun h => ih1 ?_, fun h => ih2 ?_⟩
      · simpa [hc] using h
      · simpa [hc] using h

/-- An exception out of `EnsureSizeDependentResources` carries a failure
status. -/
theorem EnsureSizeDependentResources_error (ndebug : Bool) (p : LayoutAnswers) (w w' : World)
    (e : HRESULT) (h : EnsureSizeDependentResources ndebug p w = .ok (.error e, w')) :
    e ≠ S_OK := by
  unfold EnsureSizeDependentResources at h
  split at h
  · contradiction
  split at h
  · contradiction
  split at h
  · rename_i e1 he
    simp only [Except.ok.injEq, Prod.mk.injEq, Except.error.injEq] at h
    rw [← h.1]
    exact (ThrowIfFailed_error _ e1 he).2
  split at h
  · rename_i e1 he
    simp only [Except.ok.injEq, Prod.mk.injEq, Except.error.injEq] at h
    rw [← h.1]
    exact (ThrowIfFailed_error _ e1 he).2
  split at h
  · rename_i e1 he
    simp only [Except.ok.injEq, Prod.mk.injEq, Except.error.injEq] at h
    rw [← h.1]
    exact (ThrowIfFailed_error _ e1 he).2
  dsimp only at h
  split at h
  · contradiction
  split at h
  · contradiction
  split at h
  · simp at h
  · unfold CreateCanvasImageSource at h
    cases hc1 : ThrowIfFailed p.CreateCanvasImageSource with
    | error e1 =>
      rw [hc1] at h
      simp only [Except.ok.injEq, Prod.mk.injEq, Except.error.injEq] at h
      rw [← h.1]
      exact (ThrowIfFailed_error _ e1 hc1).2
    | ok u =>
      rw [hc1] at h
      dsimp only at h
      split at h
      · rename_i e1 he
        simp only [Except.ok.injEq, Prod.mk.injEq, Except.error.injEq] at h
        rw [← h.1]
        exact (ThrowIfFailed_error _ e1 he).2
      split at h
      · rename_i e1 he
        simp only [Except.ok.injEq, Prod.mk.injEq, Except.error.injEq] at h
        rw [← h.1]
        exact (ThrowIfFailed_error _ e1 he).2
      · simp at h

/-- When its assertions hold, or are compiled out, `EnsureSizeDependentResources`
does not fault, whatever XAML answers. -/
theorem EnsureSizeDependentResources_no_fault (ndebug : Bool) (p : LayoutAnswers) (w : World)
    (hassert : ndebug = true ∨
      (w.control.m_canvasDevice.isSome = true ∧ w.control.m_isLoaded = true ∧
       p.get_ActualWidth.2 ≤ (INT_MAX : ℚ) ∧ p.get_ActualHeight.2 ≤ (INT_MAX : ℚ))) :
    ∃ r w', EnsureSizeDependentResources ndebug p w = .ok (r, w') := by
  have a1 : assert ndebug w.control.m_canvasDevice.isSome = .ok () := by
    rcases hassert with h | h <;> simp [assert, h]
  have a2 : assert ndebug w.control.m_isLoaded = .ok () := by
    rcases hassert with h | h <;> simp [assert, h]
  have a3 : assert ndebug (decide (p.get_ActualWidth.2 ≤ (INT_MAX : ℚ))) = .ok () := by
    rcases hassert with h | h <;> simp [assert, h]
  have a4 : assert ndebug (decide (p.get_ActualHeight.2 ≤ (INT_MAX : ℚ))) = .ok () := by
    rcases hassert with h | h <;> simp [assert, h]
  unfold EnsureSizeDependentResources CreateCanvasImageSource
  simp only [a1, a2, a3, a4]
  split
  · exact ⟨_, _, rfl⟩
  split
  · exact ⟨_, _, rfl⟩
  split
  · exact ⟨_, _, rfl⟩
  split
  · exact ⟨_, _, rfl⟩
  cases ThrowIfFailed p.CreateCanvasImageSource with
  | error e => exact ⟨_, _, rfl⟩
  | ok u =>
    dsimp only
    split
    · exact ⟨_, _, rfl⟩
    split
    · exact ⟨_, _, rfl⟩
    · exact ⟨_, _, rfl⟩

theorem any_callsInvalidate_map (handlers : List (EventRegistrationToken × Handler))
    (sender args : Pointer) :
    (handlers.map (fun q =>
        ({ handler := q.2, sender := sender, args := args } : Invocation))).any
      (fun i => i.handler.callsInvalidate)
      = handlers.any (fun q => q.2.callsInvalidate) := by
  induction handlers with
  | nil => rfl
  | cons q rest ih => simp only [List.map_cons, List.any_cons, ih]

/-- C12 as the code has it: take a render that starts with the control's
callback, the one under `m_renderingEventToken`, as the only one registered,
and during which the compositor grants what is asked of it.  Whenever
`OnRenderCallback` returns, the delegate invocations it added are either none
or one per registered `Drawing` delegate (all of them when it returns `S_OK`).
If one of the delegates invoked calls `Invalidate()`, then afterwards
`m_drawNeeded` is true and exactly one rendering callback is registered, the
one under `m_renderingEventToken`; if none does, `m_drawNeeded` is false and no
rendering callback is registered.  And `OnRenderCallback` does return when its
assertions hold or are compiled out. -/
theorem redraw_requested_while_drawing_is_not_lost (ndebug : Bool) (hrRemove : HRESULT)
    (p : LayoutAnswers) (d : DrawAnswers) (hrAdd : HRESULT) (w : World)
    (hreg : w.xaml.rendering = [w.control.m_renderingEventToken])
    (hrem : FAILED hrRemove = false) (hadd : FAILED hrAdd = false) :
    (∀ hr w', OnRenderCallback ndebug hrRemove p d hrAdd w = .ok (hr, w') →
      ∃ ran : List Invocation,
        w'.xaml.invocations = w.xaml.invocations ++ ran ∧
        (ran = [] ∨
          ran = w.control.m_drawEventList.m_handlers.map (fun q =>
            { handler := q.2, sender := .this,
              args := .drawEventArgs d.CreateDrawingSession.2 })) ∧
        (hr = S_OK →
          ran = w.control.m_drawEventList.m_handlers.map (fun q =>
            { handler := q.2, sender := .this,
              args := .drawEventArgs d.CreateDrawingSession.2 })) ∧
        (ran.any (fun i => i.handler.callsInvalidate) = true →
          w'.control.m_drawNeeded = true ∧
          w'.xaml.rendering = [w'.control.m_renderingEventToken]) ∧
        (ran.any (fun i => i.handler.callsInvalidate) = false →
          w'.control.m_drawNeeded = false ∧ w'.xaml.rendering = [])) ∧
    ((ndebug = true ∨
        (w.control.m_canvasDevice.isSome = true ∧ w.control.m_isLoaded = true ∧
         p.get_ActualWidth.2 ≤ (INT_MAX : ℚ) ∧ p.get_ActualHeight.2 ≤ (INT_MAX : ℚ))) →
      ∃ hr w', OnRenderCallback ndebug hrRemove p d hrAdd w = .ok (hr, w')) := by
  constructor
  · intro hr w' h
    unfold OnRenderCallback at h
    rw [ClearDrawNeeded_of_registered hrRemove w hreg hrem] at h
    dsimp only at h
    split at h
    · contradiction
    · rename_i e w2 he
      obtain ⟨_, f2, _, _, f5, _, f7⟩ := EnsureSizeDependentResources_frame ndebug p _ w2 _ he
      have hne := EnsureSizeDependentResources_error ndebug p _ w2 e he
      simp only [Except.ok.injEq, Prod.mk.injEq] at h
      obtain ⟨h1, h2⟩ := h
      subst h2
      refine ⟨[], by simp [f7], Or.inl rfl, ?_, ?_, ?_⟩
      · intro h0
        rw [← h1] at h0
        exact absurd h0 hne
      · intro hany
        simp at hany
      · intro _
        exact ⟨f2, f5⟩
    · rename_i u w2 he
      obtain ⟨_, f2, _, f4, f5, _, f7⟩ := EnsureSizeDependentResources_frame ndebug p _ w2 _ he
      split at h
      · contradiction
      · rename_i r w3 hd
        simp only [Except.ok.injEq, Prod.mk.injEq] at h
        obtain ⟨h1, h2⟩ := h
        subst h2
        rcases CallDrawHandlers_ok_inv d hrAdd w2 w3 r hd with ⟨hf, h3, hr3⟩ | ⟨_, h3⟩
        · subst h3
          refine ⟨[], by simp [f7], Or.inl rfl, ?_, ?_, ?_⟩
          · intro h0
            rw [← h1, hr3] at h0
            have hne := (ThrowIfFailed_error d.CreateDrawingSession.1 d.CreateDrawingSession.1
              (by simp [ThrowIfFailed, hf])).2
            exact absurd h0 hne
          · intro hany
            simp at hany
          · intro _
            exact ⟨f2, f5⟩
        · subst h3
          obtain ⟨g1, _, _⟩ := FireAll_frame w2.control.m_drawEventList.m_handlers .this
            (.drawEventArgs d.CreateDrawingSession.2) hrAdd w2
          obtain ⟨hyes, hno⟩ := FireAll_of_idle w2.control.m_drawEventList.m_handlers .this
            (.drawEventArgs d.CreateDrawingSession.2) hrAdd w2 hadd ⟨f2, f5⟩
          rw [f4] at g1 hyes hno ⊢
          dsimp only at g1 hyes hno ⊢
          refine ⟨w.control.m_drawEventList.m_handlers.map (fun q =>
              { handler := q.2, sender := .this,
                args := .drawEventArgs d.CreateDrawingSession.2 }),
            by rw [g1, f7], Or.inr rfl, fun _ => rfl, ?_, ?_⟩
          · intro hany
            rw [any_callsInvalidate_map] at hany
            exact hyes hany
          · intro hany
            rw [any_callsInvalidate_map] at hany
            exact hno hany
  · intro hassert
    unfold OnRenderCallback
    rw [ClearDrawNeeded_of_registered hrRemove w hreg hrem]
    dsimp only
    obtain ⟨r, w2, he⟩ := EnsureSizeDependentResources_no_fault ndebug p
      { control := { w.control with m_drawNeeded := false },
        xaml := { w.xaml with rendering := [] } } hassert
    rw [he]
    cases r with
    | error e => exact ⟨_, _, rfl⟩
    | ok u =>
      dsimp only
      have hsome : w2.control.m_canvasImageSource.isSome = true := by
        rcases EnsureSizeDependentResources_ok_inv ndebug p _ w2 he with hre | ⟨_, hw2⟩
        · obtain ⟨h1, _, _, h4⟩ := hre
          rw [h4]
          exact h1
        · rw [hw2]
          rfl
      cases hcd : CallDrawHandlers d hrAdd w2 with
      | error f =>
        exfalso
        unfold CallDrawHandlers at hcd
        cases hs : w2.control.m_canvasImageSource with
        | none => rw [hs] at hsome; simp at hsome
        | some src =>
          rw [hs] at hcd
          dsimp only at hcd
          split at hcd
          · simp at hcd
          split at hcd
          · simp at hcd
          split at hcd <;> simp at hcd
      | ok r3 => exact ⟨_, _, rfl⟩

/-- C12 at a concrete input: a control with one `Drawing` delegate that calls
`Invalidate()` is loaded, which registers its callback; the render that follows
returns `S_OK` and leaves a draw needed with exactly the control's callback
registered. -/
theorem redraw_requested_while_drawing_is_not_lost_witness :
    (OnLoaded S_OK
          (add_Drawing { id := 1, callsInvalidate := true, result := S_OK } World.initial).2.2).2.xaml.rendering
      = [(OnLoaded S_OK
          (add_Drawing { id := 1, callsInvalidate := true, result := S_OK } World.initial).2.2).2.control.m_renderingEventToken] ∧
    ∃ w', OnRenderCallback false S_OK
        { As_IFrameworkElement := S_OK, get_ActualWidth := (S_OK, 640),
          get_ActualHeight := (S_OK, 480), CreateCanvasImageSource := S_OK,
          As_IImageSource := S_OK, put_Source := S_OK }
        { CreateDrawingSession := (S_OK, 0), As_IClosable := S_OK, Close := S_OK } S_OK
        (OnLoaded S_OK
          (add_Drawing { id := 1, callsInvalidate := true, result := S_OK } World.initial).2.2).2
      = .ok (S_OK, w') ∧
      w'.control.m_drawNeeded = true ∧
      w'.xaml.rendering = [w'.control.m_renderingEventToken] := by
  have hthm := redraw_requested_while_drawing_is_not_lost false S_OK
    { As_IFrameworkElement := S_OK, get_ActualWidth := (S_OK, 640),
          get_ActualHeight := (S_OK, 480), CreateCanvasImageSource := S_OK,
          As_IImageSource := S_OK, put_Source := S_OK }
    { CreateDrawingSession := (S_OK, 0), As_IClosable := S_OK, Close := S_OK } S_OK
    (OnLoaded S_OK
          (add_Drawing { id := 1, callsInvalidate := true, result := S_OK } World.initial).2.2).2
    (by decide) (by decide) (by decide)
  refine ⟨by decide, _, rfl, ?_⟩
  obtain ⟨ran, _, _, hall, hyes, _⟩ := hthm.1 S_OK _ rfl
  have hran := hall rfl
  apply hyes
  rw [hran]
  decide

/-! ## Theorems: the flags and the lock -/

theorem guarded_append (flag : Flag) (xs ys : List Access) (held : Bool)
    (hx : guarded flag held xs = true) (hy : ∀ h, guarded flag h ys = true) :
    guarded flag held (xs ++ ys) = true := by
  induction xs generalizing held with
  | nil => exact hy held
  | cons a rest ih =>
    cases a with
    | lock => exact ih true hx
    | unlock => exact ih false hx
    | read f =>
      simp only [List.cons_append, guarded, Bool.and_eq_true] at hx ⊢
      exact ⟨hx.1, ih held hx.2⟩
    | write f =>
      simp only [List.cons_append, guarded, Bool.and_eq_true] at hx ⊢
      exact ⟨hx.1, ih held hx.2⟩

theorem guarded_InvalidateImpl (w : World) (held : Bool) :
    guarded .m_drawNeeded held (InvalidateImpl_accesses w) = true := by
  unfold InvalidateImpl_accesses
  cases w.control.m_drawNeeded <;> cases held <;> rfl

theorem guarded_Invoke (h : Handler) (w : World) (held : Bool) :
    guarded .m_drawNeeded held (Invoke_accesses h w) = true := by
  unfold Invoke_accesses
  cases h.callsInvalidate
  · rfl
  · exact guarded_InvalidateImpl w held

theorem guarded_FireAll (sender args : Pointer) (hrAdd : HRESULT)
    (handlers : List (EventRegistrationToken × Handler)) (w : World) (held : Bool) :
    guarded .m_drawNeeded held (FireAll_accesses sender args hrAdd handlers w) = true := by
  induction handlers generalizing w held with
  | nil => rfl
  | cons q rest ih =>
    unfold FireAll_accesses
    exact guarded_append _ _ _ held (guarded_Invoke q.2 w held) (fun h => ih _ h)

theorem guarded_EnsureSizeDependentResources (ndebug : Bool) (w : World) (held : Bool) :
    guarded .m_drawNeeded held (EnsureSizeDependentResources_accesses ndebug w) = true := by
  unfold EnsureSizeDependentResources_accesses
  cases ndebug <;> cases w.control.m_canvasDevice.isSome <;> cases held <;> rfl

theorem guarded_CallDrawHandlers (d : DrawAnswers) (hrAdd : HRESULT) (w : World)
    (held : Bool) :
    guarded .m_drawNeeded held (CallDrawHandlers_accesses d hrAdd w) = true := by
  unfold CallDrawHandlers_accesses
  split
  · rfl
  · split
    · rfl
    · exact guarded_FireAll _ _ _ _ _ _

theorem guarded_OnRenderCallback (ndebug : Bool) (hrRemove : HRESULT) (p : LayoutAnswers)
    (d : DrawAnswers) (hrAdd : HRESULT) (w : World) (held : Bool) :
    guarded .m_drawNeeded held (OnRenderCallback_accesses ndebug hrRemove p d hrAdd w)
      = true := by
  unfold OnRenderCallback_accesses
  apply guarded_append
  · cases held <;> rfl
  · intro h
    split
    · rfl
    · apply guarded_append
      · exact guarded_EnsureSizeDependentResources _ _ _
      · intro h2
        split
        · exact guarded_CallDrawHandlers _ _ _ _
        · rfl

theorem guarded_OnLoaded (hrAdd : HRESULT) (w : World) (held : Bool) :
    guarded .m_drawNeeded held (OnLoaded_accesses hrAdd w) = true := by
  unfold OnLoaded_accesses
  dsimp only
  apply guarded_append
  · apply guarded_append
    · cases held <;> rfl
    · intro h
      exact guarded_FireAll _ _ _ _ _ _
  · intro h
    exact guarded_InvalidateImpl _ _

theorem guarded_OnSizeChanged (args : ISizeChangedEventArgs) (w : World) (held : Bool) :
    guarded .m_drawNeeded held (OnSizeChanged_accesses args w) = true := by
  unfold OnSizeChanged_accesses
  apply guarded_append
  · cases held <;> rfl
  · intro h
    split
    · rfl
    · split
      · rfl
      · split
        · rfl
        · exact guarded_InvalidateImpl _ _

theorem guarded_add_CreatingResources (value : Handler) (w : World) (held : Bool) :
    guarded .m_drawNeeded held (add_CreatingResources_accesses value w) = true := by
  unfold add_CreatingResources_accesses
  apply guarded_append
  · cases held <;> rfl
  · intro h
    split
    · exact guarded_Invoke _ _ _
    · rfl

/-- C15 as the code has it: during every event (public call, XAML event,
compositor callback), in every state, each read and each write of
`m_drawNeeded` happens while `m_drawLock` is held.  `m_isLoaded` is not
guarded: `OnLoaded` writes it, and `OnSizeChanged` and
`add_CreatingResources` read it, before any lock is taken, whatever the
state. -/
theorem m_drawNeeded_is_guarded_m_isLoaded_is_not (ndebug : Bool) (e : ControlEvent)
    (w : World) :
    guarded .m_drawNeeded false (e.accesses ndebug w) = true ∧
    (∀ hrAdd, guarded .m_isLoaded false (ControlEvent.accesses ndebug (.loaded hrAdd) w)
      = false) ∧
    (∀ args hrAdd,
      guarded .m_isLoaded false (ControlEvent.accesses ndebug (.sizeChanged args hrAdd) w)
        = false) ∧
    (∀ value hrAdd,
      guarded .m_isLoaded false
        (ControlEvent.accesses ndebug (.addCreatingResources value hrAdd) w) = false) := by
  refine ⟨?_, fun hrAdd => rfl, fun args hrAdd => rfl, fun value hrAdd => rfl⟩
  cases e with
  | invalidate hrAdd => exact guarded_InvalidateImpl w false
  | addDrawing value => rfl
  | removeDrawing token => rfl
  | addCreatingResources value hrAdd => exact guarded_add_CreatingResources value w false
  | removeCreatingResources token => rfl
  | loaded hrAdd => exact guarded_OnLoaded hrAdd w false
  | sizeChanged args hrAdd => exact guarded_OnSizeChanged args w false
  | rendering hrRemove p d hrAdd =>
    simp only [ControlEvent.accesses]
    split
    · rfl
    · exact guarded_OnRenderCallback ndebug hrRemove p d hrAdd w false
  | measure hrAs hrMeasure availableSize => rfl

/-- C15 as stated fails: `Loaded` on a new control writes `m_isLoaded` first
and takes `m_drawLock` only afterwards, inside `InvalidateImpl`. -/
theorem OnLoaded_writes_m_isLoaded_without_lock :
    ControlEvent.accesses false (.loaded S_OK) World.initial
      = [.write .m_isLoaded, .lock, .read .m_drawNeeded, .write .m_drawNeeded, .unlock] ∧
    guarded .m_isLoaded false (ControlEvent.accesses false (.loaded S_OK) World.initial)
      = false := by
  decide

/-- C12 as stated fails.  A new control is loaded, which registers its callback
under token 1.  In the render that follows the compositor refuses to remove
the callback, so `OnRenderCallback` returns `E_FAIL` with the callback still
registered and `m_drawNeeded` cleared.  `Invalidate()` then registers a second
callback, under token 2.  The next render succeeds in every step and no
`Drawing` delegate calls `Invalidate()` (none is registered): afterwards
`m_drawNeeded` is false, yet the callback under token 1 is still registered. -/
theorem render_after_refused_removal_leaves_a_callback :
    (OnLoaded S_OK World.initial).2.xaml.rendering = [1] ∧
    OnRenderCallback false E_FAIL
        { As_IFrameworkElement := S_OK, get_ActualWidth := (S_OK, 640),
          get_ActualHeight := (S_OK, 480), CreateCanvasImageSource := S_OK,
          As_IImageSource := S_OK, put_Source := S_OK }
        { CreateDrawingSession := (S_OK, 0), As_IClosable := S_OK, Close := S_OK } S_OK
        (OnLoaded S_OK World.initial).2
      = .ok (E_FAIL, (ClearDrawNeeded E_FAIL (OnLoaded S_OK World.initial).2).2) ∧
    (Invalidate S_OK (ClearDrawNeeded E_FAIL (OnLoaded S_OK World.initial).2).2).2.xaml.rendering = [1, 2] ∧
    (Invalidate S_OK (ClearDrawNeeded E_FAIL (OnLoaded S_OK World.initial).2).2).2.control.m_renderingEventToken = 2 ∧
    (OnRenderCallback false S_OK
        { As_IFrameworkElement := S_OK, get_ActualWidth := (S_OK, 640),
          get_ActualHeight := (S_OK, 480), CreateCanvasImageSource := S_OK,
          As_IImageSource := S_OK, put_Source := S_OK }
        { CreateDrawingSession := (S_OK, 0), As_IClosable := S_OK, Close := S_OK } S_OK
        (Invalidate S_OK (ClearDrawNeeded E_FAIL (OnLoaded S_OK World.initial).2).2).2).toOption.map
      (fun r => (r.1, r.2.control.m_drawNeeded, r.2.xaml.rendering, r.2.xaml.invocations))
      = some (S_OK, false, [1], []) := by
  refine ⟨by decide, rfl, by decide, by decide, ?_⟩
  decide

end canvas
